import Mathlib

/-!
# combine_scores_gw: composite likelihood ratio (CMS score) per SNP

Shallow embedding of `main` of `cms/combine/combine_scores_gw.c`.

* The value of a C `float` or `double` variable is the rational number it
  holds (`ℚ`), and comparisons are exact, as they are on floating-point
  values. The literals `.35` and `.65`, compared with a `double`, are the
  doubles they denote. `isBinary32` says that a rational is a value a `float`
  variable can hold; on such values the tests against `2e-10` take the same
  branch whether `2e-10` is read as the decimal or as the double.
* Rounding of arithmetic results is modelled where a statement depends on
  it: `roundFloat` and `roundDouble` round to nearest, ties to even, with
  gradual underflow, and `compLikeRatioDouble` is `compLikeRatio` with every
  product rounded to `double`. `compLikeRatio` itself and the quotient
  `hit / miss` are exact.
* C `int` values are `Int`; array indices and array sizes are `Nat`.
* Every local variable of `main` that is assigned inside the SNP loop is a
  function of the run environment, the score table and the SNP index `isnp`,
  and carries the name of the C variable.
* The two output streams are lists of lines; a data line is the list of the
  arguments of its `fprintf` call, each tagged with its conversion.
-/

namespace CombineScoresGw

/-! ## Data declared in cms_data.h -/

/-- Probability table of one statistic. The declaration of the C struct and its
accessors live in cms_data.h, outside the source file; the table is
represented by the four accessors that `main` calls on it:
`getHitProb(&t, likesFreqIndex, value)`, `getMissProb(&t, value)`,
`getMinBf(&t, likesFreqIndex)`, `getMaxBf(&t, likesFreqIndex)`. -/
structure likes_data_multiple where
  getHitProb : Int → ℚ → ℚ
  getMissProb : ℚ → ℚ
  getMinBf : Int → ℚ
  getMaxBf : Int → ℚ

/-- Score table for all SNPs and all population comparisons. Only the members
read by `main` are represented; two-dimensional arrays are indexed
`[iComp][isnp]`. -/
structure popComp_data_multiple where
  nsnps : Nat
  ncomp : Nat
  physpos : Nat → Nat → Int
  genpos : Nat → Nat → ℚ
  daf_selpop : Nat → Nat → ℚ
  ihs_normed : Nat → Nat → ℚ
  nsl_normed : Nat → Nat → ℚ
  delihh_normed : Nat → Nat → ℚ
  H12 : Nat → Nat → ℚ
  H2H1 : Nat → Nat → ℚ
  iSAFE : Nat → Nat → ℚ

/-- Everything `main` has fixed before the SNP loop starts: the run parameters
read from the parameter file, the eight probability tables, and the three
functions of cms_data.h that resolve a statistic over the population
comparisons of one SNP (their bodies are outside the source file, so they are
parameters). -/
structure Env where
  minPos : Int
  maxPos : Int
  minDaf : ℚ
  writeLikes : Int
  takeIhs : Int
  takeNsl : Int
  takeDelihh : Int
  takeH12 : Int
  takeiSAFE : Int
  takeXpehh : Int
  takeFst : Int
  takeDeldaf : Int
  ihs_likes_data : likes_data_multiple
  nsl_likes_data : likes_data_multiple
  delihh_likes_data : likes_data_multiple
  H12_likes_data : likes_data_multiple
  iSAFE_likes_data : likes_data_multiple
  xpehh_likes_data : likes_data_multiple
  fst_likes_data : likes_data_multiple
  deldaf_likes_data : likes_data_multiple
  compareXp : popComp_data_multiple → Nat → ℚ
  compareFst_PBS : popComp_data_multiple → Nat → ℚ
  comparedelDaf_outgroup_ave : popComp_data_multiple → Nat → ℚ

/-! ## Handling of population comparisons (lines 156-170) -/

/-- The loop of lines 157-159, entered with loop variable `iComp` and
`fuel = ncomp - iComp` iterations left: it stops at the first comparison whose
physical position at `isnp` is non-zero. -/
def advanceComp (score_data : popComp_data_multiple) (isnp : Nat) : Nat → Nat → Nat
  | 0, iComp => iComp
  | fuel + 1, iComp =>
    if score_data.physpos iComp isnp ≠ 0 then iComp
    else advanceComp score_data isnp fuel (iComp + 1)

/-- Value of `iComp` after line 160. -/
def iComp (score_data : popComp_data_multiple) (isnp : Nat) : Nat :=
  let iComp := advanceComp score_data isnp score_data.ncomp 0
  if iComp ≥ score_data.ncomp then 0 else iComp

def thisihs (score_data : popComp_data_multiple) (isnp : Nat) : ℚ :=
  score_data.ihs_normed (iComp score_data isnp) isnp

def thisnsl (score_data : popComp_data_multiple) (isnp : Nat) : ℚ :=
  score_data.nsl_normed (iComp score_data isnp) isnp

def thisihh (score_data : popComp_data_multiple) (isnp : Nat) : ℚ :=
  score_data.delihh_normed (iComp score_data isnp) isnp

def thisH12 (score_data : popComp_data_multiple) (isnp : Nat) : ℚ :=
  score_data.H12 (iComp score_data isnp) isnp

def thisH2H1 (score_data : popComp_data_multiple) (isnp : Nat) : ℚ :=
  score_data.H2H1 (iComp score_data isnp) isnp

def thisiSAFE (score_data : popComp_data_multiple) (isnp : Nat) : ℚ :=
  score_data.iSAFE (iComp score_data isnp) isnp

def thisxpehh (E : Env) (score_data : popComp_data_multiple) (isnp : Nat) : ℚ :=
  E.compareXp score_data isnp

def thisfst (E : Env) (score_data : popComp_data_multiple) (isnp : Nat) : ℚ :=
  E.compareFst_PBS score_data isnp

def thisdelDaf (E : Env) (score_data : popComp_data_multiple) (isnp : Nat) : ℚ :=
  E.comparedelDaf_outgroup_ave score_data isnp

/-! ## Site filter (lines 172-179) -/

def thisPos (score_data : popComp_data_multiple) (isnp : Nat) : Int :=
  score_data.physpos (iComp score_data isnp) isnp

def thisdaf (score_data : popComp_data_multiple) (isnp : Nat) : ℚ :=
  score_data.daf_selpop (iComp score_data isnp) isnp

/-- Value of `proceed` after line 179 (0 means the SNP passes the filter). -/
def proceed (E : Env) (score_data : popComp_data_multiple) (isnp : Nat) : Int :=
  let proceed : Int := 0
  let proceed := if thisPos score_data isnp < E.minPos then 1 else proceed
  let proceed := if thisPos score_data isnp > E.maxPos then 1 else proceed
  let proceed := if thisdaf score_data isnp < E.minDaf then 1 else proceed
  proceed

/-! ## Frequency stratum (lines 187-189) -/

/-- The double that the literal `.35` denotes: 0x1.6666666666666p-2, the
binary64 value nearest to 0.35 (it lies below 0.35). -/
def dbl_0_35 : ℚ := 3152519739159347 / 2 ^ 53

/-- The double that the literal `.65` denotes: 0x1.4cccccccccccdp-1, the
binary64 value nearest to 0.65 (it lies above 0.65). -/
def dbl_0_65 : ℚ := 5854679515581645 / 2 ^ 53

def likesFreqIndex (score_data : popComp_data_multiple) (isnp : Nat) : Int :=
  if thisdaf score_data isnp ≤ dbl_0_35 then 0
  else if thisdaf score_data isnp > dbl_0_35 ∧ thisdaf score_data isnp ≤ dbl_0_65 then 1
  else 2

/-! ## Table lookups (lines 191-225) -/

def delihh_hitprob (E : Env) (score_data : popComp_data_multiple) (isnp : Nat) : ℚ :=
  E.delihh_likes_data.getHitProb (likesFreqIndex score_data isnp) (thisihh score_data isnp)

def nsl_hitprob (E : Env) (score_data : popComp_data_multiple) (isnp : Nat) : ℚ :=
  E.nsl_likes_data.getHitProb (likesFreqIndex score_data isnp) (thisnsl score_data isnp)

def ihs_hitprob (E : Env) (score_data : popComp_data_multiple) (isnp : Nat) : ℚ :=
  E.ihs_likes_data.getHitProb (likesFreqIndex score_data isnp) (thisihs score_data isnp)

def fst_hitprob (E : Env) (score_data : popComp_data_multiple) (isnp : Nat) : ℚ :=
  E.fst_likes_data.getHitProb (likesFreqIndex score_data isnp) (thisfst E score_data isnp)

def deldaf_hitprob (E : Env) (score_data : popComp_data_multiple) (isnp : Nat) : ℚ :=
  E.deldaf_likes_data.getHitProb (likesFreqIndex score_data isnp) (thisdelDaf E score_data isnp)

def xpehh_hitprob (E : Env) (score_data : popComp_data_multiple) (isnp : Nat) : ℚ :=
  E.xpehh_likes_data.getHitProb (likesFreqIndex score_data isnp) (thisxpehh E score_data isnp)

def H12_hitprob (E : Env) (score_data : popComp_data_multiple) (isnp : Nat) : ℚ :=
  E.H12_likes_data.getHitProb (likesFreqIndex score_data isnp) (thisH12 score_data isnp)

def iSAFE_hitprob (E : Env) (score_data : popComp_data_multiple) (isnp : Nat) : ℚ :=
  E.iSAFE_likes_data.getHitProb (likesFreqIndex score_data isnp) (thisiSAFE score_data isnp)

def delihh_missprob (E : Env) (score_data : popComp_data_multiple) (isnp : Nat) : ℚ :=
  E.delihh_likes_data.getMissProb (thisihh score_data isnp)

def nsl_missprob (E : Env) (score_data : popComp_data_multiple) (isnp : Nat) : ℚ :=
  E.nsl_likes_data.getMissProb (thisnsl score_data isnp)

def ihs_missprob (E : Env) (score_data : popComp_data_multiple) (isnp : Nat) : ℚ :=
  E.ihs_likes_data.getMissProb (thisihs score_data isnp)

def fst_missprob (E : Env) (score_data : popComp_data_multiple) (isnp : Nat) : ℚ :=
  E.fst_likes_data.getMissProb (thisfst E score_data isnp)

def deldaf_missprob (E : Env) (score_data : popComp_data_multiple) (isnp : Nat) : ℚ :=
  E.deldaf_likes_data.getMissProb (thisdelDaf E score_data isnp)

def xpehh_missprob (E : Env) (score_data : popComp_data_multiple) (isnp : Nat) : ℚ :=
  E.xpehh_likes_data.getMissProb (thisxpehh E score_data isnp)

def H12_missprob (E : Env) (score_data : popComp_data_multiple) (isnp : Nat) : ℚ :=
  E.H12_likes_data.getMissProb (thisH12 score_data isnp)

def iSAFE_missprob (E : Env) (score_data : popComp_data_multiple) (isnp : Nat) : ℚ :=
  E.iSAFE_likes_data.getMissProb (thisiSAFE score_data isnp)

def delihh_minbf (E : Env) (score_data : popComp_data_multiple) (isnp : Nat) : ℚ :=
  E.delihh_likes_data.getMinBf (likesFreqIndex score_data isnp)

def nsl_minbf (E : Env) (score_data : popComp_data_multiple) (isnp : Nat) : ℚ :=
  E.nsl_likes_data.getMinBf (likesFreqIndex score_data isnp)

def ihs_minbf (E : Env) (score_data : popComp_data_multiple) (isnp : Nat) : ℚ :=
  E.ihs_likes_data.getMinBf (likesFreqIndex score_data isnp)

def fst_minbf (E : Env) (score_data : popComp_data_multiple) (isnp : Nat) : ℚ :=
  E.fst_likes_data.getMinBf (likesFreqIndex score_data isnp)

def deldaf_minbf (E : Env) (score_data : popComp_data_multiple) (isnp : Nat) : ℚ :=
  E.deldaf_likes_data.getMinBf (likesFreqIndex score_data isnp)

def xpehh_minbf (E : Env) (score_data : popComp_data_multiple) (isnp : Nat) : ℚ :=
  E.xpehh_likes_data.getMinBf (likesFreqIndex score_data isnp)

def H12_minbf (E : Env) (score_data : popComp_data_multiple) (isnp : Nat) : ℚ :=
  E.H12_likes_data.getMinBf (likesFreqIndex score_data isnp)

def iSAFE_minbf (E : Env) (score_data : popComp_data_multiple) (isnp : Nat) : ℚ :=
  E.iSAFE_likes_data.getMinBf (likesFreqIndex score_data isnp)

def delihh_maxbf (E : Env) (score_data : popComp_data_multiple) (isnp : Nat) : ℚ :=
  E.delihh_likes_data.getMaxBf (likesFreqIndex score_data isnp)

def nsl_maxbf (E : Env) (score_data : popComp_data_multiple) (isnp : Nat) : ℚ :=
  E.nsl_likes_data.getMaxBf (likesFreqIndex score_data isnp)

def ihs_maxbf (E : Env) (score_data : popComp_data_multiple) (isnp : Nat) : ℚ :=
  E.ihs_likes_data.getMaxBf (likesFreqIndex score_data isnp)

def fst_maxbf (E : Env) (score_data : popComp_data_multiple) (isnp : Nat) : ℚ :=
  E.fst_likes_data.getMaxBf (likesFreqIndex score_data isnp)

def deldaf_maxbf (E : Env) (score_data : popComp_data_multiple) (isnp : Nat) : ℚ :=
  E.deldaf_likes_data.getMaxBf (likesFreqIndex score_data isnp)

def xpehh_maxbf (E : Env) (score_data : popComp_data_multiple) (isnp : Nat) : ℚ :=
  E.xpehh_likes_data.getMaxBf (likesFreqIndex score_data isnp)

def H12_maxbf (E : Env) (score_data : popComp_data_multiple) (isnp : Nat) : ℚ :=
  E.H12_likes_data.getMaxBf (likesFreqIndex score_data isnp)

def iSAFE_maxbf (E : Env) (score_data : popComp_data_multiple) (isnp : Nat) : ℚ :=
  E.iSAFE_likes_data.getMaxBf (likesFreqIndex score_data isnp)

/-! ## Bayes factors with the pseudocount catch (lines 230-268)

Each definition is the value of the C variable of that name after the three
`if` statements of its block, executed in source order. -/

def delihh_bf (E : Env) (score_data : popComp_data_multiple) (isnp : Nat) : ℚ :=
  let delihh_bf : ℚ := 1
  let delihh_bf := if delihh_missprob E score_data isnp > 2e-10 ∧ delihh_hitprob E score_data isnp > 2e-10
    then delihh_hitprob E score_data isnp / delihh_missprob E score_data isnp else delihh_bf
  let delihh_bf := if delihh_missprob E score_data isnp < 2e-10 ∧ delihh_hitprob E score_data isnp > 2e-10
    then delihh_maxbf E score_data isnp else delihh_bf
  let delihh_bf := if delihh_hitprob E score_data isnp < 2e-10 ∧ delihh_missprob E score_data isnp > 2e-10
    then delihh_minbf E score_data isnp else delihh_bf
  delihh_bf

def nsl_bf (E : Env) (score_data : popComp_data_multiple) (isnp : Nat) : ℚ :=
  let nsl_bf : ℚ := 1
  let nsl_bf := if nsl_missprob E score_data isnp > 2e-10 ∧ nsl_hitprob E score_data isnp > 2e-10
    then nsl_hitprob E score_data isnp / nsl_missprob E score_data isnp else nsl_bf
  let nsl_bf := if nsl_missprob E score_data isnp < 2e-10 ∧ nsl_hitprob E score_data isnp > 2e-10
    then nsl_maxbf E score_data isnp else nsl_bf
  let nsl_bf := if nsl_hitprob E score_data isnp < 2e-10 ∧ nsl_missprob E score_data isnp > 2e-10
    then nsl_minbf E score_data isnp else nsl_bf
  nsl_bf

def ihs_bf (E : Env) (score_data : popComp_data_multiple) (isnp : Nat) : ℚ :=
  let ihs_bf : ℚ := 1
  let ihs_bf := if ihs_missprob E score_data isnp > 2e-10 ∧ ihs_hitprob E score_data isnp > 2e-10
    then ihs_hitprob E score_data isnp / ihs_missprob E score_data isnp else ihs_bf
  let ihs_bf := if ihs_missprob E score_data isnp < 2e-10 ∧ ihs_hitprob E score_data isnp > 2e-10
    then ihs_maxbf E score_data isnp else ihs_bf
  let ihs_bf := if ihs_hitprob E score_data isnp < 2e-10 ∧ ihs_missprob E score_data isnp > 2e-10
    then ihs_minbf E score_data isnp else ihs_bf
  ihs_bf

def fst_bf (E : Env) (score_data : popComp_data_multiple) (isnp : Nat) : ℚ :=
  let fst_bf : ℚ := 1
  let fst_bf := if fst_missprob E score_data isnp > 2e-10 ∧ fst_hitprob E score_data isnp > 2e-10
    then fst_hitprob E score_data isnp / fst_missprob E score_data isnp else fst_bf
  let fst_bf := if fst_missprob E score_data isnp < 2e-10 ∧ fst_hitprob E score_data isnp > 2e-10
    then fst_maxbf E score_data isnp else fst_bf
  let fst_bf := if fst_hitprob E score_data isnp < 2e-10 ∧ fst_missprob E score_data isnp > 2e-10
    then fst_minbf E score_data isnp else fst_bf
  fst_bf

def deldaf_bf (E : Env) (score_data : popComp_data_multiple) (isnp : Nat) : ℚ :=
  let deldaf_bf : ℚ := 1
  let deldaf_bf := if deldaf_missprob E score_data isnp > 2e-10 ∧ deldaf_hitprob E score_data isnp > 2e-10
    then deldaf_hitprob E score_data isnp / deldaf_missprob E score_data isnp else deldaf_bf
  let deldaf_bf := if deldaf_missprob E score_data isnp < 2e-10 ∧ deldaf_hitprob E score_data isnp > 2e-10
    then deldaf_maxbf E score_data isnp else deldaf_bf
  let deldaf_bf := if deldaf_hitprob E score_data isnp < 2e-10 ∧ deldaf_missprob E score_data isnp > 2e-10
    then deldaf_minbf E score_data isnp else deldaf_bf
  deldaf_bf

def xpehh_bf (E : Env) (score_data : popComp_data_multiple) (isnp : Nat) : ℚ :=
  let xpehh_bf : ℚ := 1
  let xpehh_bf := if xpehh_missprob E score_data isnp > 2e-10 ∧ xpehh_hitprob E score_data isnp > 2e-10
    then xpehh_hitprob E score_data isnp / xpehh_missprob E score_data isnp else xpehh_bf
  let xpehh_bf := if xpehh_missprob E score_data isnp < 2e-10 ∧ xpehh_hitprob E score_data isnp > 2e-10
    then xpehh_maxbf E score_data isnp else xpehh_bf
  let xpehh_bf := if xpehh_hitprob E score_data isnp < 2e-10 ∧ xpehh_missprob E score_data isnp > 2e-10
    then xpehh_minbf E score_data isnp else xpehh_bf
  xpehh_bf

def H12_bf (E : Env) (score_data : popComp_data_multiple) (isnp : Nat) : ℚ :=
  let H12_bf : ℚ := 1
  let H12_bf := if H12_missprob E score_data isnp > 2e-10 ∧ H12_hitprob E score_data isnp > 2e-10
    then H12_hitprob E score_data isnp / H12_missprob E score_data isnp else H12_bf
  let H12_bf := if H12_missprob E score_data isnp < 2e-10 ∧ H12_hitprob E score_data isnp > 2e-10
    then H12_maxbf E score_data isnp else H12_bf
  let H12_bf := if H12_hitprob E score_data isnp < 2e-10 ∧ H12_missprob E score_data isnp > 2e-10
    then H12_minbf E score_data isnp else H12_bf
  H12_bf

def iSAFE_bf (E : Env) (score_data : popComp_data_multiple) (isnp : Nat) : ℚ :=
  let iSAFE_bf : ℚ := 1
  let iSAFE_bf := if iSAFE_missprob E score_data isnp > 2e-10 ∧ iSAFE_hitprob E score_data isnp > 2e-10
    then iSAFE_hitprob E score_data isnp / iSAFE_missprob E score_data isnp else iSAFE_bf
  let iSAFE_bf := if iSAFE_missprob E score_data isnp < 2e-10 ∧ iSAFE_hitprob E score_data isnp > 2e-10
    then iSAFE_maxbf E score_data isnp else iSAFE_bf
  let iSAFE_bf := if iSAFE_hitprob E score_data isnp < 2e-10 ∧ iSAFE_missprob E score_data isnp > 2e-10
    then iSAFE_minbf E score_data isnp else iSAFE_bf
  iSAFE_bf

/-! ## CMS score (lines 180-183 and 274-281) -/

/-- Value of `compLikeRatio` at the end of the loop body for SNP `isnp`: 0 when
the SNP is filtered out (line 180), else 1 (line 183) multiplied by the Bayes
factor of every statistic whose flag is 0, in source order. -/
def compLikeRatio (E : Env) (score_data : popComp_data_multiple) (isnp : Nat) : ℚ :=
  let compLikeRatio : ℚ := 0
  if proceed E score_data isnp = 0 then
    let compLikeRatio : ℚ := 1
    let compLikeRatio := if E.takeIhs = 0 then compLikeRatio * ihs_bf E score_data isnp else compLikeRatio
    let compLikeRatio := if E.takeDelihh = 0 then compLikeRatio * delihh_bf E score_data isnp else compLikeRatio
    let compLikeRatio := if E.takeNsl = 0 then compLikeRatio * nsl_bf E score_data isnp else compLikeRatio
    let compLikeRatio := if E.takeFst = 0 then compLikeRatio * fst_bf E score_data isnp else compLikeRatio
    let compLikeRatio := if E.takeDeldaf = 0 then compLikeRatio * deldaf_bf E score_data isnp else compLikeRatio
    let compLikeRatio := if E.takeXpehh = 0 then compLikeRatio * xpehh_bf E score_data isnp else compLikeRatio
    let compLikeRatio := if E.takeH12 = 0 then compLikeRatio * H12_bf E score_data isnp else compLikeRatio
    let compLikeRatio := if E.takeiSAFE = 0 then compLikeRatio * iSAFE_bf E score_data isnp else compLikeRatio
    compLikeRatio
  else compLikeRatio

/-! ## Output (lines 139-151 and 284-285) -/

/-- One argument of an `fprintf` call together with its conversion. -/
inductive Cell where
  | d (v : Int)
  | f (v : ℚ)
  | e (v : ℚ)
  deriving DecidableEq

/-- One line of an output file: a header (its tab-separated column names) or a
data line (its tab-separated cells). -/
inductive Line where
  | header (cols : List String)
  | row (cells : List Cell)
  deriving DecidableEq

/-- Header written to `outf` at line 143. -/
def outfHeader : List String :=
  ["physPos", "genPos", "popDAF", "normed_iHS", "normed_nsl", "normed_delihh", "H12", "iSAFE",
   "normed_xp-ehh", "fst", "delDAF", "compLikeRatio_CMS"]

/-- Header written to `outf2` at line 150. -/
def outf2Header : List String :=
  ["physPos", "genPos", "popDAF", "like_iHS", "like_nsl", "like_deliHH", "like_H12", "like_iSAFE",
   "like_xp-ehh", "likefst", "likedelDAF", "compLikeRatio_CMS"]

/-- Arguments of the `fprintf(outf, ...)` call of line 284. -/
def outfRow (E : Env) (score_data : popComp_data_multiple) (isnp : Nat) : List Cell :=
  [Cell.d (score_data.physpos (iComp score_data isnp) isnp),
   Cell.f (score_data.genpos (iComp score_data isnp) isnp),
   Cell.f (thisdaf score_data isnp),
   Cell.f (thisihs score_data isnp),
   Cell.f (thisnsl score_data isnp),
   Cell.f (thisihh score_data isnp),
   Cell.f (thisH12 score_data isnp),
   Cell.f (thisiSAFE score_data isnp),
   Cell.f (thisxpehh E score_data isnp),
   Cell.f (thisfst E score_data isnp),
   Cell.f (thisdelDaf E score_data isnp),
   Cell.e (compLikeRatio E score_data isnp)]

/-- Arguments of the `fprintf(outf2, ...)` call of line 285. -/
def outf2Row (E : Env) (score_data : popComp_data_multiple) (isnp : Nat) : List Cell :=
  [Cell.d (score_data.physpos (iComp score_data isnp) isnp),
   Cell.f (score_data.genpos (iComp score_data isnp) isnp),
   Cell.f (thisdaf score_data isnp),
   Cell.f (ihs_bf E score_data isnp),
   Cell.f (nsl_bf E score_data isnp),
   Cell.f (delihh_bf E score_data isnp),
   Cell.f (H12_bf E score_data isnp),
   Cell.f (iSAFE_bf E score_data isnp),
   Cell.f (xpehh_bf E score_data isnp),
   Cell.f (fst_bf E score_data isnp),
   Cell.f (deldaf_bf E score_data isnp),
   Cell.e (compLikeRatio E score_data isnp)]

/-- The two output streams: the lines written so far to `outf`, and for
`outf2` either `none` (the stream was never opened, `outf2 == NULL`) or the
lines written so far. -/
structure Files where
  outf : List Line
  outf2 : Option (List Line)

/-- Body of the SNP loop (lines 153-299) as a transition on the output
streams. -/
def snpStep (E : Env) (score_data : popComp_data_multiple) (files : Files) (isnp : Nat) : Files :=
  if proceed E score_data isnp = 0 then
    let outf := files.outf ++ [Line.row (outfRow E score_data isnp)]
    let outf2 := if E.writeLikes = 0
      then files.outf2.map (fun lines => lines ++ [Line.row (outf2Row E score_data isnp)])
      else files.outf2
    Files.mk outf outf2
  else files

/-- The output part of `main` (lines 139-300): both streams after the loop
over `isnp = 0 .. nsnps - 1`. -/
def main (E : Env) (score_data : popComp_data_multiple) : Files :=
  let outf := [Line.header outfHeader]
  let outf2 := if E.writeLikes = 0 then some [Line.header outf2Header] else none
  (List.range score_data.nsnps).foldl (snpStep E score_data) (Files.mk outf outf2)

/-! ## The eight statistics, for statements that range over all of them -/

/-- The eight component statistics. -/
inductive Stat where
  | ihs | nsl | delihh | H12 | iSAFE | xpehh | fst | deldaf
  deriving DecidableEq

/-- Hit probability variable of a statistic. -/
def hitprob (E : Env) (score_data : popComp_data_multiple) (isnp : Nat) : Stat → ℚ
  | .ihs => ihs_hitprob E score_data isnp
  | .nsl => nsl_hitprob E score_data isnp
  | .delihh => delihh_hitprob E score_data isnp
  | .H12 => H12_hitprob E score_data isnp
  | .iSAFE => iSAFE_hitprob E score_data isnp
  | .xpehh => xpehh_hitprob E score_data isnp
  | .fst => fst_hitprob E score_data isnp
  | .deldaf => deldaf_hitprob E score_data isnp

/-- Miss probability variable of a statistic. -/
def missprob (E : Env) (score_data : popComp_data_multiple) (isnp : Nat) : Stat → ℚ
  | .ihs => ihs_missprob E score_data isnp
  | .nsl => nsl_missprob E score_data isnp
  | .delihh => delihh_missprob E score_data isnp
  | .H12 => H12_missprob E score_data isnp
  | .iSAFE => iSAFE_missprob E score_data isnp
  | .xpehh => xpehh_missprob E score_data isnp
  | .fst => fst_missprob E score_data isnp
  | .deldaf => deldaf_missprob E score_data isnp

/-- Minimum Bayes factor variable of a statistic. -/
def minbf (E : Env) (score_data : popComp_data_multiple) (isnp : Nat) : Stat → ℚ
  | .ihs => ihs_minbf E score_data isnp
  | .nsl => nsl_minbf E score_data isnp
  | .delihh => delihh_minbf E score_data isnp
  | .H12 => H12_minbf E score_data isnp
  | .iSAFE => iSAFE_minbf E score_data isnp
  | .xpehh => xpehh_minbf E score_data isnp
  | .fst => fst_minbf E score_data isnp
  | .deldaf => deldaf_minbf E score_data isnp

/-- Maximum Bayes factor variable of a statistic. -/
def maxbf (E : Env) (score_data : popComp_data_multiple) (isnp : Nat) : Stat → ℚ
  | .ihs => ihs_maxbf E score_data isnp
  | .nsl => nsl_maxbf E score_data isnp
  | .delihh => delihh_maxbf E score_data isnp
  | .H12 => H12_maxbf E score_data isnp
  | .iSAFE => iSAFE_maxbf E score_data isnp
  | .xpehh => xpehh_maxbf E score_data isnp
  | .fst => fst_maxbf E score_data isnp
  | .deldaf => deldaf_maxbf E score_data isnp

/-- Bayes factor variable of a statistic. -/
def bf (E : Env) (score_data : popComp_data_multiple) (isnp : Nat) : Stat → ℚ
  | .ihs => ihs_bf E score_data isnp
  | .nsl => nsl_bf E score_data isnp
  | .delihh => delihh_bf E score_data isnp
  | .H12 => H12_bf E score_data isnp
  | .iSAFE => iSAFE_bf E score_data isnp
  | .xpehh => xpehh_bf E score_data isnp
  | .fst => fst_bf E score_data isnp
  | .deldaf => deldaf_bf E score_data isnp

/-- Exclusion flag of a statistic (0 means the statistic is used). -/
def take (E : Env) : Stat → Int
  | .ihs => E.takeIhs
  | .nsl => E.takeNsl
  | .delihh => E.takeDelihh
  | .H12 => E.takeH12
  | .iSAFE => E.takeiSAFE
  | .xpehh => E.takeXpehh
  | .fst => E.takeFst
  | .deldaf => E.takeDeldaf

/-- The statistics in the order in which lines 274-281 multiply them in. -/
def multOrder : List Stat :=
  [.ihs, .delihh, .nsl, .fst, .deldaf, .xpehh, .H12, .iSAFE]

/-- The three tests of one Bayes factor block (for instance lines 230-233) on
the four values they read; used to reason about the eight blocks at once. -/
def catchPseudocounts (hit miss minBf maxBf : ℚ) : ℚ :=
  let b : ℚ := 1
  let b := if miss > 2e-10 ∧ hit > 2e-10 then hit / miss else b
  let b := if miss < 2e-10 ∧ hit > 2e-10 then maxBf else b
  let b := if hit < 2e-10 ∧ miss > 2e-10 then minBf else b
  b

/-! ## Concrete inputs used to instantiate the theorems -/

/-- A table that answers every lookup with the same four numbers. -/
def constTable (hit miss minBf maxBf : ℚ) : likes_data_multiple :=
  likes_data_multiple.mk (fun _ _ => hit) (fun _ => miss) (fun _ => minBf) (fun _ => maxBf)

/-- Three SNPs, two comparisons. SNP 0 has no data in comparison 0 and lies at
position 100 in comparison 1; SNP 1 lies at position 5; SNP 2 at position 200
with the double nearest to 0.35 as derived allele frequency. -/
def exampleData : popComp_data_multiple :=
  popComp_data_multiple.mk 3 2
    (fun iComp isnp => if isnp = 0 then (if iComp = 0 then 0 else 100) else if isnp = 1 then 5 else 200)
    (fun _ isnp => isnp / 10)
    (fun _ isnp => if isnp = 0 then 1 / 10 else if isnp = 1 then 1 / 2 else dbl_0_35)
    (fun _ _ => 2) (fun _ _ => 1) (fun _ _ => 3) (fun _ _ => 1 / 4) (fun _ _ => 1 / 8) (fun _ _ => 1 / 5)

/-- Window [10, 1000], no frequency threshold, decomposition written, only
Fst excluded. The tables put iHS in the ratio regime, nSL and XP-EHH in the
clamp-to-maximum regime, delIHH in the clamp-to-minimum regime, H12 in the
neutral regime, iSAFE in the clamp-to-maximum regime with a tiny positive miss
probability and delDAF in the clamp-to-minimum regime with a tiny positive
hit probability. -/
def exampleEnv : Env :=
  Env.mk 10 1000 0 0
    0 0 0 0 0 0 1 0
    (constTable (4 / 5) (1 / 5) (1 / 100) 100)
    (constTable (1 / 2) 0 (1 / 100) 50)
    (constTable 0 (1 / 2) (1 / 20) 100)
    (constTable 1e-10 1e-11 10 10)
    (constTable (1 / 2) (1 / 2 ^ 40) (1 / 100) 30)
    (constTable (1 / 3) 1e-10 (1 / 100) 7)
    (constTable (4 / 5) (1 / 5) (1 / 100) 100)
    (constTable (1 / 2 ^ 40) (1 / 2) (1 / 25) 100)
    (fun _ _ => 1) (fun _ _ => 2) (fun _ _ => 3)

/-! ## Notions used to state the properties of the SNP loop -/

/-- The SNPs that pass the filter, in stored order. -/
def eligibleSnps (E : Env) (score_data : popComp_data_multiple) : List Nat :=
  (List.range score_data.nsnps).filter (fun isnp => proceed E score_data isnp = 0)

/-- Two score tables hold the same record for SNP `isnp`: the same number of
comparisons, the same members at `[iComp][isnp]` for every comparison that the
loop body can read (`iComp < ncomp`, or `iComp = 0` after line 160), and the
same three values resolved over the comparisons of that SNP. -/
def sameSite (E : Env) (d1 d2 : popComp_data_multiple) (isnp : Nat) : Prop :=
  d1.ncomp = d2.ncomp
    ∧ (∀ iComp, iComp < d1.ncomp ∨ iComp = 0 →
        d1.physpos iComp isnp = d2.physpos iComp isnp
          ∧ d1.genpos iComp isnp = d2.genpos iComp isnp
          ∧ d1.daf_selpop iComp isnp = d2.daf_selpop iComp isnp
          ∧ d1.ihs_normed iComp isnp = d2.ihs_normed iComp isnp
          ∧ d1.nsl_normed iComp isnp = d2.nsl_normed iComp isnp
          ∧ d1.delihh_normed iComp isnp = d2.delihh_normed iComp isnp
          ∧ d1.H12 iComp isnp = d2.H12 iComp isnp
          ∧ d1.iSAFE iComp isnp = d2.iSAFE iComp isnp)
    ∧ E.compareXp d1 isnp = E.compareXp d2 isnp
    ∧ E.compareFst_PBS d1 isnp = E.compareFst_PBS d2 isnp
    ∧ E.comparedelDaf_outgroup_ave d1 isnp = E.comparedelDaf_outgroup_ave d2 isnp

/-- The example table with a fourth SNP appended and the records of SNPs 1
and 2 changed; the record of SNP 0 is the same. -/
def exampleData2 : popComp_data_multiple :=
  popComp_data_multiple.mk 4 2
    (fun iComp isnp => if isnp = 0 then (if iComp = 0 then 0 else 100) else 7)
    (fun _ isnp => if isnp = 0 then 0 else 9)
    (fun _ isnp => if isnp = 0 then 1 / 10 else 3 / 4)
    (fun _ isnp => if isnp = 0 then 2 else 0)
    (fun _ isnp => if isnp = 0 then 1 else 0)
    (fun _ isnp => if isnp = 0 then 3 else 0)
    (fun _ isnp => if isnp = 0 then 1 / 4 else 0)
    (fun _ _ => 0)
    (fun _ isnp => if isnp = 0 then 1 / 5 else 0)

/-- The example environment with all eight statistics excluded. -/
def exampleEnvNone : Env :=
  Env.mk 10 1000 0 0
    1 1 1 1 1 1 1 1
    (constTable (4 / 5) (1 / 5) (1 / 100) 100)
    (constTable (1 / 2) 0 (1 / 100) 50)
    (constTable 0 (1 / 2) (1 / 20) 100)
    (constTable 1e-10 1e-11 10 10)
    (constTable (1 / 2) (1 / 2 ^ 40) (1 / 100) 30)
    (constTable (1 / 3) 1e-10 (1 / 100) 7)
    (constTable (4 / 5) (1 / 5) (1 / 100) 100)
    (constTable (1 / 2 ^ 40) (1 / 2) (1 / 25) 100)
    (fun _ _ => 1) (fun _ _ => 2) (fun _ _ => 3)

/-! ## Uniform view of the eight statistics -/

/-- Probability table that belongs to a statistic. -/
def likesTable (E : Env) : Stat → likes_data_multiple
  | .ihs => E.ihs_likes_data
  | .nsl => E.nsl_likes_data
  | .delihh => E.delihh_likes_data
  | .H12 => E.H12_likes_data
  | .iSAFE => E.iSAFE_likes_data
  | .xpehh => E.xpehh_likes_data
  | .fst => E.fst_likes_data
  | .deldaf => E.deldaf_likes_data

/-- Value of a statistic at a SNP, taken straight from the score table: the
member of the representative comparison for the five single-population
statistics, the resolver of cms_data.h for the three pairwise ones. -/
def statValue (E : Env) (score_data : popComp_data_multiple) (isnp : Nat) : Stat → ℚ
  | .ihs => score_data.ihs_normed (iComp score_data isnp) isnp
  | .nsl => score_data.nsl_normed (iComp score_data isnp) isnp
  | .delihh => score_data.delihh_normed (iComp score_data isnp) isnp
  | .H12 => score_data.H12 (iComp score_data isnp) isnp
  | .iSAFE => score_data.iSAFE (iComp score_data isnp) isnp
  | .xpehh => E.compareXp score_data isnp
  | .fst => E.compareFst_PBS score_data isnp
  | .deldaf => E.comparedelDaf_outgroup_ave score_data isnp

/-- The record `{hit, miss, bf, minBf, maxBf}` of the design notes. -/
structure StatRecord where
  hit : ℚ
  miss : ℚ
  bf : ℚ
  minBf : ℚ
  maxBf : ℚ
  deriving DecidableEq

/-- The uniform per-statistic function of the design notes: from one table,
the stratum index and one value it looks up hit, miss, minBf and maxBf in that
table and derives the Bayes factor by the three tests. -/
def uniformRecord (table : likes_data_multiple) (stratum : Int) (value : ℚ) : StatRecord :=
  StatRecord.mk
    (table.getHitProb stratum value)
    (table.getMissProb value)
    (catchPseudocounts (table.getHitProb stratum value) (table.getMissProb value)
      (table.getMinBf stratum) (table.getMaxBf stratum))
    (table.getMinBf stratum)
    (table.getMaxBf stratum)

/-- The five variables that the hand-written block of a statistic leaves
behind. -/
def blockRecord (E : Env) (score_data : popComp_data_multiple) (isnp : Nat) (s : Stat) :
    StatRecord :=
  StatRecord.mk (hitprob E score_data isnp s) (missprob E score_data isnp s)
    (bf E score_data isnp s) (minbf E score_data isnp s) (maxbf E score_data isnp s)

/-! ## Column order of the two output files -/

/-- The statistics in the order of the eight middle columns. -/
def columnOrder : List Stat :=
  [.ihs, .nsl, .delihh, .H12, .iSAFE, .xpehh, .fst, .deldaf]

/-- Column name of a statistic in the header of `outf`. -/
def outfColumn : Stat → String
  | .ihs => "normed_iHS"
  | .nsl => "normed_nsl"
  | .delihh => "normed_delihh"
  | .H12 => "H12"
  | .iSAFE => "iSAFE"
  | .xpehh => "normed_xp-ehh"
  | .fst => "fst"
  | .deldaf => "delDAF"

/-- Column name of a statistic in the header of `outf2`. -/
def outf2Column : Stat → String
  | .ihs => "like_iHS"
  | .nsl => "like_nsl"
  | .delihh => "like_deliHH"
  | .H12 => "like_H12"
  | .iSAFE => "like_iSAFE"
  | .xpehh => "like_xp-ehh"
  | .fst => "likefst"
  | .deldaf => "likedelDAF"

/-! ## One Bayes factor block, statement by statement -/

/-- Division that fails on a zero divisor. -/
def checkedDiv (a b : ℚ) : Option ℚ :=
  if b = 0 then none else some (a / b)

/-- One Bayes factor block (for instance lines 230-233) with the division
checked: `none` means that a division by zero was evaluated. -/
def catchPseudocountsChecked (hit miss minBf maxBf : ℚ) : Option ℚ := do
  let b : ℚ := 1
  let b ← if miss > 2e-10 ∧ hit > 2e-10 then checkedDiv hit miss else pure b
  let b := if miss < 2e-10 ∧ hit > 2e-10 then maxBf else b
  let b := if hit < 2e-10 ∧ miss > 2e-10 then minBf else b
  pure b

/-- First statement of a block: the ratio test. -/
def ratioTest (hit miss : ℚ) (b : ℚ) : ℚ :=
  if miss > 2e-10 ∧ hit > 2e-10 then hit / miss else b

/-- Second statement of a block: the clamp to the maximum Bayes factor. -/
def maxTest (hit miss maxBf : ℚ) (b : ℚ) : ℚ :=
  if miss < 2e-10 ∧ hit > 2e-10 then maxBf else b

/-- Third statement of a block: the clamp to the minimum Bayes factor. -/
def minTest (hit miss minBf : ℚ) (b : ℚ) : ℚ :=
  if hit < 2e-10 ∧ miss > 2e-10 then minBf else b

/-- The example environment with every statistic but iHS excluded. -/
def exampleEnvIhs : Env :=
  Env.mk 10 1000 0 0
    0 1 1 1 1 1 1 1
    (constTable 0.8 0.2 (1 / 100) 100)
    (constTable (1 / 2) 0 (1 / 100) 50)
    (constTable 0 (1 / 2) (1 / 20) 100)
    (constTable 1e-10 1e-11 10 10)
    (constTable (1 / 2) (1 / 2 ^ 40) (1 / 100) 30)
    (constTable (1 / 3) 1e-10 (1 / 100) 7)
    (constTable (4 / 5) (1 / 5) (1 / 100) 100)
    (constTable (1 / 2 ^ 40) (1 / 2) (1 / 25) 100)
    (fun _ _ => 1) (fun _ _ => 2) (fun _ _ => 3)

/-! ## Run parameters (lines 94-122) -/

/-- The local variables of `main` that lines 94-122 set from the parameter
file. -/
structure RunParams where
  minPos : Int
  maxPos : Int
  minDaf : ℚ
  writeLikes : Int
  takeIhs : Int
  takeNsl : Int
  takeDelihh : Int
  takeH12 : Int
  takeiSAFE : Int
  takeXpehh : Int
  takeFst : Int
  takeDeldaf : Int

/-- The delimiters of the `strsep` calls: space and tab. -/
def isDelim (c : Char) : Bool :=
  c = ' ' || c = '\t'

/-- One call `token = strsep(&running, " \t")` on a non-NULL `running`: the
token runs up to the first delimiter, and `running` becomes the text after
that delimiter, or NULL (`none`) when there is no delimiter. -/
def strsep : List Char → List Char × Option (List Char)
  | [] => ([], none)
  | c :: cs =>
    if isDelim c then ([], some cs)
    else (c :: (strsep cs).1, (strsep cs).2)

/-- The `for` loop of lines 102-107 and 110-121: `body` is the loop body,
`running` and `itoken` the loop variables; `fuel` bounds the number of
iterations. The loop ends when `strsep` is called on NULL. -/
def tokenLoop (body : RunParams → Nat → List Char → RunParams) :
    Nat → Option (List Char) → Nat → RunParams → RunParams
  | 0, _, _, P => P
  | _ + 1, none, _, P => P
  | fuel + 1, some s, itoken, P =>
    tokenLoop body fuel (strsep s).2 (itoken + 1) (body P itoken (strsep s).1)

/-- Loop body of lines 103-106; `atoi` and `atof` are the C library
functions. -/
def paramBody (atoi : List Char → Int) (atof : List Char → ℚ)
    (P : RunParams) (itoken : Nat) (token : List Char) : RunParams :=
  if itoken = 0 then { P with minPos := atoi token }
  else if itoken = 1 then { P with maxPos := atoi token }
  else if itoken = 2 then { P with minDaf := atof token }
  else if itoken = 3 then { P with writeLikes := atoi token }
  else P

/-- Loop body of lines 111-118. -/
def takeBody (atoi : List Char → Int)
    (P : RunParams) (itoken : Nat) (token : List Char) : RunParams :=
  if itoken = 0 then { P with takeIhs := atoi token }
  else if itoken = 1 then { P with takeNsl := atoi token }
  else if itoken = 2 then { P with takeDelihh := atoi token }
  else if itoken = 3 then { P with takeH12 := atoi token }
  else if itoken = 4 then { P with takeiSAFE := atoi token }
  else if itoken = 5 then { P with takeXpehh := atoi token }
  else if itoken = 6 then { P with takeFst := atoi token }
  else if itoken = 7 then { P with takeDeldaf := atoi token }
  else P

/-- One call `fgets(paramline, line_size, inf)` on the lines that are left in
the file: NULL (`none`) at end of file. -/
def fgets : List (List Char) → Option (List Char) × List (List Char)
  | [] => (none, [])
  | line :: rest => (some line, rest)

/-- Lines 94-122. `lines` are the lines of the parameter file after the eight
table paths. `writeLikes` is declared at line 49 without an initialiser and is
not assigned by lines 95-99, so its value before line 101 is indeterminate:
it is the parameter `writeLikes0`. -/
def readParams (atoi : List Char → Int) (atof : List Char → ℚ) (writeLikes0 : Int)
    (lines : List (List Char)) : RunParams :=
  let P : RunParams := RunParams.mk (-1) 2147483647 0 writeLikes0 0 0 0 0 0 0 0 0
  let P := match (fgets lines).1 with
    | some paramline => tokenLoop (paramBody atoi atof) (paramline.length + 1) (some paramline) 0 P
    | none => P
  let P := match (fgets (fgets lines).2).1 with
    | some paramline => tokenLoop (takeBody atoi) (paramline.length + 1) (some paramline) 0 P
    | none => P
  P

/-- The environment of the SNP loop with the run parameters `P`; the tables
and the resolvers are those of `E`. -/
def envOf (P : RunParams) (E : Env) : Env :=
  { E with
    minPos := P.minPos, maxPos := P.maxPos, minDaf := P.minDaf, writeLikes := P.writeLikes,
    takeIhs := P.takeIhs, takeNsl := P.takeNsl, takeDelihh := P.takeDelihh,
    takeH12 := P.takeH12, takeiSAFE := P.takeiSAFE, takeXpehh := P.takeXpehh,
    takeFst := P.takeFst, takeDeldaf := P.takeDeldaf }

/-- The fields of a line: the tokens that the successive `strsep` calls of
the loop return. Every single space or tab ends a field. -/
def strsepTokens : List Char → List (List Char)
  | [] => [[]]
  | c :: cs =>
    if isDelim c then [] :: strsepTokens cs
    else match strsepTokens cs with
      | [] => [[c]]
      | token :: rest => (c :: token) :: rest

/-- The order of the exclusion flags on line 10 of the parameter file. -/
def flagOrder : List Stat :=
  [.ihs, .nsl, .delihh, .H12, .iSAFE, .xpehh, .fst, .deldaf]

/-- Exclusion flag of a statistic among the run parameters. -/
def RunParams.take (P : RunParams) : Stat → Int
  | .ihs => P.takeIhs
  | .nsl => P.takeNsl
  | .delihh => P.takeDelihh
  | .H12 => P.takeH12
  | .iSAFE => P.takeiSAFE
  | .xpehh => P.takeXpehh
  | .fst => P.takeFst
  | .deldaf => P.takeDeldaf

/-! ## Start and end of `main` (lines 53-57 and 314) -/

/-- How `main` ends: by the `exit` call of line 55, having done nothing but
print to stderr, or by the `return` of line 314 with both output streams. -/
inductive Outcome where
  | exited (status : Int) (stderr : List String)
  | returned (status : Int) (nComparisons : Int) (files : Files)

/-- The message of line 54. -/
def usage : String :=
  "Usage: ./combine_scores_gw <savefilename> <cms_run_paramfile> <input_pair_file1> ...\n"

/-- The whole of `main`. `argc` counts the program name. The loader of
cms_data.h is a parameter that receives `nComparisons` and `argc`; `lines` are
the lines of the parameter file after the eight table paths; `E` carries the
loaded tables and the resolvers. -/
def program (argc : Int) (get_popComp_completeData : Int → Int → popComp_data_multiple)
    (atoi : List Char → Int) (atof : List Char → ℚ) (writeLikes0 : Int)
    (lines : List (List Char)) (E : Env) : Outcome :=
  if argc ≤ 3 then Outcome.exited 0 [usage]
  else
    let nComparisons := argc - 3
    let score_data := get_popComp_completeData nComparisons argc
    let P := readParams atoi atof writeLikes0 lines
    Outcome.returned 0 nComparisons (main (envOf P E) score_data)

/-- Exit status of the process. -/
def exitStatus : Outcome → Int
  | .exited status _ => status
  | .returned status _ _ => status

/-- A stand-in for `atoi` on the example lines: the value of the first
character when it is a digit, else 0. -/
def exampleAtoi : List Char → Int
  | [] => 0
  | c :: _ => if c.isDigit then (c.toNat - 48 : Nat) else 0

/-- The loop of `tokenLoop` written over the list of fields of the line. -/
def tokenFold (body : RunParams → Nat → List Char → RunParams) :
    List (List Char) → Nat → RunParams → RunParams
  | [], _, P => P
  | token :: rest, itoken, P => tokenFold body rest (itoken + 1) (body P itoken token)

/-- The line `1 0 1` followed by a newline. -/
def exampleFlagsLine : List Char :=
  ['1', ' ', '0', ' ', '1', '\n']

/-- The line `5 900` followed by a newline. -/
def exampleParamLine : List Char :=
  ['5', ' ', '9', '0', '0', '\n']

/-- The Bayes factor resolver in the words of the specification (section
4.2): hit / miss when both exceed 2e-10, maxBf when miss <= 2e-10 < hit, minBf
when hit <= 2e-10 < miss, and the default 1.0 when both are at most 2e-10. -/
def bayesFactor (hit miss minBf maxBf : ℚ) : ℚ :=
  if hit > 2e-10 ∧ miss > 2e-10 then hit / miss
  else if miss ≤ 2e-10 ∧ hit > 2e-10 then maxBf
  else if hit ≤ 2e-10 ∧ miss > 2e-10 then minBf
  else 1

/-! ## Values of the C floating-point types -/

/-- The finite values of a C `float` (IEEE binary32): the numbers
`m * 2 ^ e` with `|m| < 2 ^ 24` and `-149 <= e <= 104`, written with
`k = e + 149`. The variables `*_hitprob`, `*_missprob`, `*_minbf`, `*_maxbf`
and `*_bf` are declared `float` at lines 35-42. -/
def isBinary32 (q : ℚ) : Prop :=
  ∃ (m : Int) (k : Nat), |m| < 2 ^ 24 ∧ k ≤ 253 ∧ q = m * 2 ^ k / 2 ^ 149

/-- The double that the literal `2e-10` denotes: 0x1.b7cdfd9d7bdbbp-33 (it
lies above the decimal 2e-10). -/
def dbl_2e_10 : ℚ := 7737125245533627 / 2 ^ 85

/-- The double nearest to 0.3500001: 0x1.66666d1c630d1p-2. -/
def dbl_0_3500001 : ℚ := 6305041279758545 / 2 ^ 54

/-- The double nearest to 0.6500001: 0x1.4cccd027cb202p-1. -/
def dbl_0_6500001 : ℚ := 2927340208150785 / 2 ^ 52

/-! ## Probability table as the specification describes it -/

/-- Modelled from the spec: one bin of a Probability Table (spec section 3): a
value range [start_bin, end_bin), one miss probability and three hit
probabilities, for the strata low, mid and high. The C declaration is in
cms_data.h, outside the sources; the member names are those of the debugging
statement at line 134. -/
structure LikesBin where
  start_bin : ℚ
  end_bin : ℚ
  miss_probs : ℚ
  hit_probs_low : ℚ
  hit_probs_mid : ℚ
  hit_probs_hi : ℚ

/-- Modelled from the spec: the hit probability of a bin for a stratum index,
0 for low, 1 for mid and 2 for high (spec section 3). -/
def LikesBin.hit (b : LikesBin) (stratum : Int) : ℚ :=
  if stratum = 0 then b.hit_probs_low
  else if stratum = 1 then b.hit_probs_mid
  else b.hit_probs_hi

/-- Modelled from the spec: the bin that contains a value (spec section 4.1),
the first one whose range holds it; `none` when the value lies outside all
bins, a case the spec leaves open. -/
def findBin (bins : List LikesBin) (value : ℚ) : Option LikesBin :=
  bins.find? (fun b => b.start_bin ≤ value ∧ value < b.end_bin)

/-- Modelled from the spec: the ratios hit / miss observed across all bins for
a stratum (spec section 3). -/
def binRatios (bins : List LikesBin) (stratum : Int) : List ℚ :=
  bins.map (fun b => b.hit stratum / b.miss_probs)

/-- Modelled from the spec: what `getMinBf` returns, the least ratio observed
across all bins for the stratum (spec section 3); 1 for a table without
bins. -/
def minRatio (bins : List LikesBin) (stratum : Int) : ℚ :=
  match binRatios bins stratum with
  | [] => 1
  | r :: rs => rs.foldl min r

/-- Modelled from the spec: what `getMaxBf` returns, the greatest ratio
observed across all bins for the stratum (spec section 3); 1 for a table
without bins. -/
def maxRatio (bins : List LikesBin) (stratum : Int) : ℚ :=
  match binRatios bins stratum with
  | [] => 1
  | r :: rs => rs.foldl max r

/-- Modelled from the spec: the four accessors of cms_data.h on a table given
by its bins (spec sections 3 and 4.1). Outside all bins the lookups return 0;
the spec leaves that case open and no statement below uses it. -/
def tableOfBins (bins : List LikesBin) : likes_data_multiple :=
  likes_data_multiple.mk
    (fun stratum value =>
      match findBin bins value with
      | some b => b.hit stratum
      | none => 0)
    (fun value =>
      match findBin bins value with
      | some b => b.miss_probs
      | none => 0)
    (fun stratum => minRatio bins stratum)
    (fun stratum => maxRatio bins stratum)

/-- Two bins: on [0, 1/2) hit and miss are 2^-34 and 2^-37 (ratio 8) for every
stratum, on [1/2, 4) they are 3/4 and 1/4 (ratio 3). -/
def exampleBins : List LikesBin :=
  [LikesBin.mk 0 (1 / 2) (1 / 2 ^ 37) (1 / 2 ^ 34) (1 / 2 ^ 34) (1 / 2 ^ 34),
   LikesBin.mk (1 / 2) 4 (1 / 4) (3 / 4) (3 / 4) (3 / 4)]

/-- The example environment with the tables of nSL and H12 given by
`exampleBins`: the nSL value 1 of the example falls into the second bin, the
H12 value 1/4 into the first. -/
def exampleEnvBins : Env :=
  { exampleEnv with
    nsl_likes_data := tableOfBins exampleBins, H12_likes_data := tableOfBins exampleBins }

/-- The whitespace-separated fields of a line in the usual sense: the maximal
runs of characters other than space and tab. Adjacent separators enclose no
field, and a separator at the start of the line precedes none. -/
def wsFields (line : List Char) : List (List Char) :=
  (strsepTokens line).filter (fun token => !token.isEmpty)

/-- The line `0  1 1 1 1 1 1 1` (two blanks after the first field) followed by
a newline. -/
def exampleBlankLine : List Char :=
  ['0', ' ', ' ', '1', ' ', '1', ' ', '1', ' ', '1', ' ', '1', ' ', '1', ' ', '1', '\n']

/-! ## Rounding of arithmetic results -/

/-- Rounding to the nearest integer, ties to the even one. -/
def roundHalfEven (y : ℚ) : Int :=
  if y - ⌊y⌋ < 1 / 2 then ⌊y⌋
  else if y - ⌊y⌋ > 1 / 2 then ⌊y⌋ + 1
  else if ⌊y⌋ % 2 = 0 then ⌊y⌋ else ⌊y⌋ + 1

/-- The value that a binary floating-point format with `prec` significand bits
and least normal exponent `emin` stores for the real result `x`: `x` rounded
to the nearest multiple of the quantum `2 ^ (e - (prec - 1))`, ties to even,
where `e` is the exponent of `x` but not less than `emin` (gradual
underflow). Results beyond the largest finite value are not turned into
infinity. -/
def roundBinary (prec : Nat) (emin : Int) (x : ℚ) : ℚ :=
  roundHalfEven (x / 2 ^ (max (Int.log 2 |x|) emin - ((prec : Int) - 1)))
    * 2 ^ (max (Int.log 2 |x|) emin - ((prec : Int) - 1))

/-- Rounding to C `float` (IEEE binary32). -/
def roundFloat (x : ℚ) : ℚ :=
  roundBinary 24 (-126) x

/-- Rounding to C `double` (IEEE binary64). -/
def roundDouble (x : ℚ) : ℚ :=
  roundBinary 53 (-1022) x

/-- Value of `compLikeRatio` at the end of the loop body (lines 180-183 and
274-281) with the arithmetic of the C types: each factor is the value of a
`float` variable (the Bayes factor of the block as a binary32 number) and
each `*=` stores the product rounded to `double`. -/
def compLikeRatioDouble (E : Env) (score_data : popComp_data_multiple) (isnp : Nat) : ℚ :=
  let compLikeRatio : ℚ := 0
  if proceed E score_data isnp = 0 then
    let compLikeRatio : ℚ := 1
    let compLikeRatio := if E.takeIhs = 0
      then roundDouble (compLikeRatio * roundFloat (ihs_bf E score_data isnp)) else compLikeRatio
    let compLikeRatio := if E.takeDelihh = 0
      then roundDouble (compLikeRatio * roundFloat (delihh_bf E score_data isnp)) else compLikeRatio
    let compLikeRatio := if E.takeNsl = 0
      then roundDouble (compLikeRatio * roundFloat (nsl_bf E score_data isnp)) else compLikeRatio
    let compLikeRatio := if E.takeFst = 0
      then roundDouble (compLikeRatio * roundFloat (fst_bf E score_data isnp)) else compLikeRatio
    let compLikeRatio := if E.takeDeldaf = 0
      then roundDouble (compLikeRatio * roundFloat (deldaf_bf E score_data isnp)) else compLikeRatio
    let compLikeRatio := if E.takeXpehh = 0
      then roundDouble (compLikeRatio * roundFloat (xpehh_bf E score_data isnp)) else compLikeRatio
    let compLikeRatio := if E.takeH12 = 0
      then roundDouble (compLikeRatio * roundFloat (H12_bf E score_data isnp)) else compLikeRatio
    let compLikeRatio := if E.takeiSAFE = 0
      then roundDouble (compLikeRatio * roundFloat (iSAFE_bf E score_data isnp)) else compLikeRatio
    compLikeRatio
  else compLikeRatio

/-- A table with hit 0 and miss 1/2 everywhere, whose minimum and maximum
Bayes factor are both 2^-149, the least positive value of a `float`. -/
def tinyTable : likes_data_multiple :=
  constTable 0 (1 / 2) (2 ^ (-149 : Int)) (2 ^ (-149 : Int))

/-- Window [10, 1000], no frequency threshold, no statistic excluded, and
`tinyTable` for all eight statistics. -/
def exampleEnvTiny : Env :=
  Env.mk 10 1000 0 0
    0 0 0 0 0 0 0 0
    tinyTable tinyTable tinyTable tinyTable tinyTable tinyTable tinyTable tinyTable
    (fun _ _ => 1) (fun _ _ => 2) (fun _ _ => 3)

/-! # Theorems -/

/-! ## Auxiliary lemmas -/

theorem bf_eq_catch (E : Env) (d : popComp_data_multiple) (isnp : Nat) (s : Stat) :
    bf E d isnp s = catchPseudocounts (hitprob E d isnp s) (missprob E d isnp s)
      (minbf E d isnp s) (maxbf E d isnp s) := by
  cases s <;> rfl

theorem catch_cases (hit miss minBf maxBf : ℚ) :
    catchPseudocounts hit miss minBf maxBf =
      if miss > 2e-10 ∧ hit > 2e-10 then hit / miss
      else if miss < 2e-10 ∧ hit > 2e-10 then maxBf
      else if hit < 2e-10 ∧ miss > 2e-10 then minBf
      else 1 := by
  unfold catchPseudocounts
  rcases lt_trichotomy miss 2e-10 with hm | hm | hm <;>
  rcases lt_trichotomy hit 2e-10 with hh | hh | hh <;>
  simp [hm, hh, hm.not_lt, hh.not_lt]

theorem proceed_eq_zero_iff (E : Env) (d : popComp_data_multiple) (isnp : Nat) :
    proceed E d isnp = 0 ↔
      E.minPos ≤ thisPos d isnp ∧ thisPos d isnp ≤ E.maxPos ∧ E.minDaf ≤ thisdaf d isnp := by
  unfold proceed
  by_cases h1 : thisPos d isnp < E.minPos <;>
  by_cases h2 : thisPos d isnp > E.maxPos <;>
  by_cases h3 : thisdaf d isnp < E.minDaf <;>
  simp [h1, h2, h3]
  exact ⟨not_lt.mp h1, not_lt.mp h2, not_lt.mp h3⟩

theorem isBinary32_ne_threshold (q : ℚ) (h : isBinary32 q) : q ≠ 2e-10 := by
  obtain ⟨m, k, _, _, rfl⟩ := h
  intro heq
  have h1 : (2e-10 : ℚ) = 1 / 5000000000 := by norm_num
  rw [h1] at heq
  have h2 : (m : ℚ) * 2 ^ k * 5000000000 = 2 ^ 149 := by
    field_simp at heq
    linarith
  have h3 : m * 2 ^ k * 5000000000 = (2 : Int) ^ 149 := by exact_mod_cast h2
  have h4 : (5 : Int) ∣ 2 ^ 149 := ⟨m * 2 ^ k * 1000000000, by rw [← h3]; ring⟩
  have h5 : (5 : Int) ∣ 2 := Int.Prime.dvd_pow' (by norm_num) h4
  omega

theorem isBinary32_around_threshold (q : ℚ) (h : isBinary32 q) :
    q ≤ 14411518 / 2 ^ 56 ∨ 14411519 / 2 ^ 56 ≤ q := by
  obtain ⟨m, k, hm, _, rfl⟩ := h
  rcases Nat.lt_or_ge k 93 with hk | hk
  · left
    have h1 : (m : ℚ) ≤ 2 ^ 24 := by
      have : m ≤ 2 ^ 24 := le_of_lt (lt_of_le_of_lt (le_abs_self m) hm)
      exact_mod_cast this
    have h2 : (2 : ℚ) ^ k ≤ 2 ^ 92 := pow_le_pow_right₀ (by norm_num) (by omega)
    have h3 : (m : ℚ) * 2 ^ k ≤ 2 ^ 24 * 2 ^ 92 := by
      rcases le_or_lt (m : ℚ) 0 with hneg | hpos
      · calc (m : ℚ) * 2 ^ k ≤ 0 := mul_nonpos_of_nonpos_of_nonneg hneg (by positivity)
          _ ≤ 2 ^ 24 * 2 ^ 92 := by positivity
      · exact mul_le_mul h1 h2 (by positivity) (by positivity)
    rw [div_le_div_iff₀ (by positivity) (by positivity)]
    calc (m : ℚ) * 2 ^ k * 2 ^ 56 ≤ 2 ^ 24 * 2 ^ 92 * 2 ^ 56 :=
          mul_le_mul_of_nonneg_right h3 (by positivity)
      _ ≤ 14411518 * 2 ^ 149 := by norm_num
  · obtain ⟨j, rfl⟩ : ∃ j, k = 93 + j := ⟨k - 93, by omega⟩
    have hq : (m : ℚ) * 2 ^ (93 + j) / 2 ^ 149 = ((m * 2 ^ j : Int) : ℚ) / 2 ^ 56 := by
      rw [pow_add]
      push_cast
      field_simp
      ring
    rw [hq]
    rcases le_or_lt (m * 2 ^ j) 14411518 with hle | hgt
    · left
      have : ((m * 2 ^ j : Int) : ℚ) ≤ 14411518 := by exact_mod_cast hle
      exact div_le_div_of_nonneg_right this (by positivity)
    · right
      have : (14411519 : ℚ) ≤ ((m * 2 ^ j : Int) : ℚ) := by exact_mod_cast hgt
      exact div_le_div_of_nonneg_right this (by positivity)

theorem threshold_double_agrees (q : ℚ) (h : isBinary32 q) :
    (q < 2e-10 ↔ q < dbl_2e_10) ∧ (q > 2e-10 ↔ q > dbl_2e_10)
      ∧ q ≠ 2e-10 ∧ q ≠ dbl_2e_10 := by
  have h1 : (14411518 : ℚ) / 2 ^ 56 < 2e-10 := by norm_num
  have h2 : (2e-10 : ℚ) < dbl_2e_10 := by norm_num [dbl_2e_10]
  have h3 : dbl_2e_10 < 14411519 / 2 ^ 56 := by norm_num [dbl_2e_10]
  rcases isBinary32_around_threshold q h with hq | hq
  · refine ⟨⟨fun _ => by linarith, fun _ => by linarith⟩,
      ⟨fun hc => by linarith, fun hc => by linarith⟩, ?_, ?_⟩
    · exact (by linarith : q < 2e-10).ne
    · exact (by linarith : q < dbl_2e_10).ne
  · refine ⟨⟨fun hc => by linarith, fun hc => by linarith⟩,
      ⟨fun _ => by linarith, fun _ => by linarith⟩, ?_, ?_⟩
    · exact ne_of_gt (by linarith : (2e-10 : ℚ) < q)
    · exact ne_of_gt (by linarith : dbl_2e_10 < q)
/-! ## C1 -/

/-- C1: for an eligible SNP (`proceed = 0`) the composite ratio left in
`compLikeRatio` is the product of the Bayes factors of exactly the statistics
whose exclusion flag is 0; when all eight flags are non-zero it is 1. -/
theorem compLikeRatio_eq_prod_enabled (E : Env) (d : popComp_data_multiple) (isnp : Nat)
    (h : proceed E d isnp = 0) :
    compLikeRatio E d isnp
        = ((multOrder.filter (fun s => take E s = 0)).map (bf E d isnp)).prod
      ∧ ((∀ s, take E s ≠ 0) → compLikeRatio E d isnp = 1) := by
  constructor
  · unfold compLikeRatio
    rw [if_pos h]
    by_cases h1 : E.takeIhs = 0 <;> by_cases h2 : E.takeDelihh = 0 <;>
    by_cases h3 : E.takeNsl = 0 <;> by_cases h4 : E.takeFst = 0 <;>
    by_cases h5 : E.takeDeldaf = 0 <;> by_cases h6 : E.takeXpehh = 0 <;>
    by_cases h7 : E.takeH12 = 0 <;> by_cases h8 : E.takeiSAFE = 0 <;>
    simp [multOrder, List.filter, take, bf, h1, h2, h3, h4, h5, h6, h7, h8, mul_assoc]
  · intro hall
    have h1 := hall .ihs
    have h2 := hall .delihh
    have h3 := hall .nsl
    have h4 := hall .fst
    have h5 := hall .deldaf
    have h6 := hall .xpehh
    have h7 := hall .H12
    have h8 := hall .iSAFE
    simp only [take] at h1 h2 h3 h4 h5 h6 h7 h8
    unfold compLikeRatio
    simp [h, h1, h2, h3, h4, h5, h6, h7, h8]

/-- Instance of C1 at SNP 0 of the example: with Fst alone excluded the
composite ratio is the product of the other seven factors, and with all eight
statistics excluded it is 1. -/
theorem compLikeRatio_eq_prod_enabled_witness :
    proceed exampleEnv exampleData 0 = 0
      ∧ compLikeRatio exampleEnv exampleData 0
        = ((multOrder.filter (fun s => take exampleEnv s = 0)).map
            (bf exampleEnv exampleData 0)).prod
      ∧ proceed exampleEnvNone exampleData 0 = 0
      ∧ compLikeRatio exampleEnvNone exampleData 0 = 1 :=
  ⟨by simp [proceed, thisPos, thisdaf, iComp, advanceComp, exampleEnv, exampleData],
   (compLikeRatio_eq_prod_enabled exampleEnv exampleData 0
      (by simp [proceed, thisPos, thisdaf, iComp, advanceComp, exampleEnv, exampleData])).1,
   by simp [proceed, thisPos, thisdaf, iComp, advanceComp, exampleEnvNone, exampleData],
   (compLikeRatio_eq_prod_enabled exampleEnvNone exampleData 0
      (by simp [proceed, thisPos, thisdaf, iComp, advanceComp, exampleEnvNone, exampleData])).2
      (by intro s; cases s <;> simp [take, exampleEnvNone])⟩

/-! ## C2 -/

/-- C2: for every statistic, when its hit and miss probabilities both exceed
2e-10 the Bayes factor is exactly hit / miss, whatever the minimum and
maximum Bayes factors of the table are. -/
theorem bf_eq_hit_div_miss (E : Env) (d : popComp_data_multiple) (isnp : Nat) (s : Stat)
    (hh : hitprob E d isnp s > 2e-10) (hm : missprob E d isnp s > 2e-10) :
    bf E d isnp s = hitprob E d isnp s / missprob E d isnp s := by
  rw [bf_eq_catch, catch_cases, if_pos ⟨hm, hh⟩]

/-- Instance of C2: iHS in the example has hit 4/5 and miss 1/5. -/
theorem bf_eq_hit_div_miss_witness :
    hitprob exampleEnv exampleData 0 .ihs > 2e-10 ∧ missprob exampleEnv exampleData 0 .ihs > 2e-10
      ∧ bf exampleEnv exampleData 0 .ihs
        = hitprob exampleEnv exampleData 0 .ihs / missprob exampleEnv exampleData 0 .ihs :=
  ⟨by norm_num [hitprob, ihs_hitprob, exampleEnv, constTable],
   by norm_num [missprob, ihs_missprob, exampleEnv, constTable],
   bf_eq_hit_div_miss exampleEnv exampleData 0 .ihs
     (by norm_num [hitprob, ihs_hitprob, exampleEnv, constTable])
     (by norm_num [missprob, ihs_missprob, exampleEnv, constTable])⟩

/-! ## C3 -/

/-- C3: for every statistic, when the miss probability held in its `float`
variable is at most 2e-10 and the hit probability exceeds 2e-10, the Bayes
factor is the maximum Bayes factor of the table for the stratum of the SNP.
(A `float` cannot hold 2e-10 itself, so `miss <= 2e-10` and the test
`miss < 2e-10` of the source agree.) -/
theorem bf_eq_maxbf_of_miss_le (E : Env) (d : popComp_data_multiple) (isnp : Nat) (s : Stat)
    (hfloat : isBinary32 (missprob E d isnp s))
    (hh : hitprob E d isnp s > 2e-10) (hm : missprob E d isnp s ≤ 2e-10) :
    bf E d isnp s = maxbf E d isnp s := by
  have hlt : missprob E d isnp s < 2e-10 :=
    lt_of_le_of_ne hm (isBinary32_ne_threshold _ hfloat)
  rw [bf_eq_catch, catch_cases]
  simp [hlt, hh, hlt.not_lt, hh.not_lt]

/-- Instance of C3: nSL in the example has hit 1/2 and miss 0, and its Bayes
factor is the maximum Bayes factor 50 of its table. -/
theorem bf_eq_maxbf_of_miss_le_witness :
    isBinary32 (missprob exampleEnv exampleData 0 .nsl)
      ∧ hitprob exampleEnv exampleData 0 .nsl > 2e-10
      ∧ missprob exampleEnv exampleData 0 .nsl ≤ 2e-10
      ∧ bf exampleEnv exampleData 0 .nsl = maxbf exampleEnv exampleData 0 .nsl :=
  have hf : isBinary32 (missprob exampleEnv exampleData 0 .nsl) :=
    ⟨0, 0, by norm_num, by norm_num, by norm_num [missprob, nsl_missprob, exampleEnv, constTable]⟩
  ⟨hf, by norm_num [hitprob, nsl_hitprob, exampleEnv, constTable],
   by norm_num [missprob, nsl_missprob, exampleEnv, constTable],
   bf_eq_maxbf_of_miss_le exampleEnv exampleData 0 .nsl hf
     (by norm_num [hitprob, nsl_hitprob, exampleEnv, constTable])
     (by norm_num [missprob, nsl_missprob, exampleEnv, constTable])⟩

/-! ## C4 -/

/-- C4: for every statistic, when the hit probability held in its `float`
variable is at most 2e-10 and the miss probability exceeds 2e-10, the Bayes
factor is the minimum Bayes factor of the table for the stratum of the SNP.
(A `float` cannot hold 2e-10 itself, so `hit <= 2e-10` and the test
`hit < 2e-10` of the source agree.) -/
theorem bf_eq_minbf_of_hit_le (E : Env) (d : popComp_data_multiple) (isnp : Nat) (s : Stat)
    (hfloat : isBinary32 (hitprob E d isnp s))
    (hh : hitprob E d isnp s ≤ 2e-10) (hm : missprob E d isnp s > 2e-10) :
    bf E d isnp s = minbf E d isnp s := by
  have hlt : hitprob E d isnp s < 2e-10 :=
    lt_of_le_of_ne hh (isBinary32_ne_threshold _ hfloat)
  rw [bf_eq_catch, catch_cases]
  simp [hlt, hm, hlt.not_lt, hm.not_lt]

/-- Instance of C4: delIHH in the example has hit 0 and miss 1/2, and its Bayes
factor is the minimum Bayes factor 1/20 of its table. -/
theorem bf_eq_minbf_of_hit_le_witness :
    isBinary32 (hitprob exampleEnv exampleData 0 .delihh)
      ∧ hitprob exampleEnv exampleData 0 .delihh ≤ 2e-10
      ∧ missprob exampleEnv exampleData 0 .delihh > 2e-10
      ∧ bf exampleEnv exampleData 0 .delihh = minbf exampleEnv exampleData 0 .delihh :=
  have hf : isBinary32 (hitprob exampleEnv exampleData 0 .delihh) :=
    ⟨0, 0, by norm_num, by norm_num, by norm_num [hitprob, delihh_hitprob, exampleEnv, constTable]⟩
  ⟨hf, by norm_num [hitprob, delihh_hitprob, exampleEnv, constTable],
   by norm_num [missprob, delihh_missprob, exampleEnv, constTable],
   bf_eq_minbf_of_hit_le exampleEnv exampleData 0 .delihh hf
     (by norm_num [hitprob, delihh_hitprob, exampleEnv, constTable])
     (by norm_num [missprob, delihh_missprob, exampleEnv, constTable])⟩

/-! ## C5 -/

/-- C5: for every statistic, when its hit and miss probabilities are both at
most 2e-10 the Bayes factor is exactly 1, whatever the minimum and maximum
Bayes factors of the table are. -/
theorem bf_eq_one_of_both_le (E : Env) (d : popComp_data_multiple) (isnp : Nat) (s : Stat)
    (hh : hitprob E d isnp s ≤ 2e-10) (hm : missprob E d isnp s ≤ 2e-10) :
    bf E d isnp s = 1 := by
  rw [bf_eq_catch, catch_cases, if_neg (fun h => absurd h.1 (not_lt.mpr hm)),
    if_neg (fun h => absurd h.2 (not_lt.mpr hh)), if_neg (fun h => absurd h.2 (not_lt.mpr hm))]

/-- Instance of C5: H12 in the example has hit 1e-10 and miss 1e-11, with
minimum and maximum Bayes factor both 10, and its Bayes factor is 1. -/
theorem bf_eq_one_of_both_le_witness :
    hitprob exampleEnv exampleData 0 .H12 ≤ 2e-10 ∧ missprob exampleEnv exampleData 0 .H12 ≤ 2e-10
      ∧ bf exampleEnv exampleData 0 .H12 = 1 :=
  ⟨by norm_num [hitprob, H12_hitprob, exampleEnv, constTable],
   by norm_num [missprob, H12_missprob, exampleEnv, constTable],
   bf_eq_one_of_both_le exampleEnv exampleData 0 .H12
     (by norm_num [hitprob, H12_hitprob, exampleEnv, constTable])
     (by norm_num [missprob, H12_missprob, exampleEnv, constTable])⟩

/-! ## C7 -/

/-- C7: the loop body leaves both output streams untouched (the SNP is
skipped) if and only if its position is below minPos, or above maxPos, or its
derived allele frequency is below minDaf; equivalently the SNP is scored
(`proceed = 0`) exactly when minPos <= position <= maxPos and minDaf <= daf,
boundary values included. -/
theorem snp_skipped_iff (E : Env) (d : popComp_data_multiple) (files : Files) (isnp : Nat) :
    (snpStep E d files isnp = files ↔
        thisPos d isnp < E.minPos ∨ thisPos d isnp > E.maxPos ∨ thisdaf d isnp < E.minDaf)
      ∧ (proceed E d isnp = 0 ↔
        E.minPos ≤ thisPos d isnp ∧ thisPos d isnp ≤ E.maxPos ∧ E.minDaf ≤ thisdaf d isnp) := by
  refine ⟨?_, proceed_eq_zero_iff E d isnp⟩
  have hp := proceed_eq_zero_iff E d isnp
  unfold snpStep
  by_cases h : proceed E d isnp = 0
  · rw [if_pos h]
    have h2 := hp.mp h
    constructor
    · intro heq
      have hlen := congrArg (fun f => f.outf.length) heq
      simp at hlen
    · rintro (h3 | h3 | h3)
      · omega
      · omega
      · linarith [h2.2.2]
  · rw [if_neg h]
    simp only [true_iff]
    by_contra hcon
    push_neg at hcon
    exact h (hp.mpr ⟨hcon.1, hcon.2.1, hcon.2.2⟩)

/-! ## C8 -/

/-- C8: the stratum index is a total function of the derived allele frequency
with exactly one value among 0, 1, 2: it is 0 exactly when daf <= .35, 1
exactly when .35 < daf <= .65 and 2 exactly when daf > .65, where daf is a
double and `.35`, `.65` are the doubles these literals denote; so the double
for 0.35 gives 0, the double for 0.3500001 gives 1, the double for 0.65 gives
1 and the double for 0.6500001 gives 2. -/
theorem likesFreqIndex_partition (d : popComp_data_multiple) (isnp : Nat) :
    (likesFreqIndex d isnp = 0 ↔ thisdaf d isnp ≤ dbl_0_35)
      ∧ (likesFreqIndex d isnp = 1 ↔ dbl_0_35 < thisdaf d isnp ∧ thisdaf d isnp ≤ dbl_0_65)
      ∧ (likesFreqIndex d isnp = 2 ↔ dbl_0_65 < thisdaf d isnp)
      ∧ (likesFreqIndex d isnp = 0 ∨ likesFreqIndex d isnp = 1 ∨ likesFreqIndex d isnp = 2)
      ∧ (thisdaf d isnp = dbl_0_35 → likesFreqIndex d isnp = 0)
      ∧ (thisdaf d isnp = dbl_0_3500001 → likesFreqIndex d isnp = 1)
      ∧ (thisdaf d isnp = dbl_0_65 → likesFreqIndex d isnp = 1)
      ∧ (thisdaf d isnp = dbl_0_6500001 → likesFreqIndex d isnp = 2) := by
  have h0 : dbl_0_35 < dbl_0_65 := by norm_num [dbl_0_35, dbl_0_65]
  unfold likesFreqIndex
  refine ⟨?_, ?_, ?_, ?_, ?_, ?_, ?_, ?_⟩
  · split_ifs <;> simp_all
  · split_ifs with a b <;> simp_all
  · split_ifs with a b <;> simp_all
    linarith
  · split_ifs <;> simp
  · intro h; rw [h]; norm_num [dbl_0_35, dbl_0_65]
  · intro h; rw [h]; norm_num [dbl_0_35, dbl_0_65, dbl_0_3500001]
  · intro h; rw [h]; norm_num [dbl_0_35, dbl_0_65]
  · intro h; rw [h]; norm_num [dbl_0_35, dbl_0_65, dbl_0_6500001]

/-- Instance of C8: SNP 2 of the example has the double for 0.35 as derived
allele frequency and gets stratum index 0. -/
theorem likesFreqIndex_partition_witness :
    thisdaf exampleData 2 = dbl_0_35 ∧ likesFreqIndex exampleData 2 = 0 :=
  ⟨by simp [thisdaf, exampleData],
   (likesFreqIndex_partition exampleData 2).2.2.2.2.1 (by simp [thisdaf, exampleData])⟩

/-! ## The SNP loop -/

theorem foldl_snpStep_outf (E : Env) (d : popComp_data_multiple) (l : List Nat) (files : Files) :
    (l.foldl (snpStep E d) files).outf
      = files.outf ++ (l.filter (fun isnp => proceed E d isnp = 0)).map
          (fun isnp => Line.row (outfRow E d isnp)) := by
  induction l generalizing files with
  | nil => simp
  | cons i l ih =>
    rw [List.foldl_cons, ih]
    by_cases h : proceed E d i = 0
    · simp [snpStep, h, List.filter_cons]
    · simp [snpStep, h, List.filter_cons]

theorem foldl_snpStep_outf2 (E : Env) (d : popComp_data_multiple) (l : List Nat) (files : Files) :
    (l.foldl (snpStep E d) files).outf2
      = if E.writeLikes = 0 then
          files.outf2.map (fun lines => lines ++ (l.filter (fun isnp => proceed E d isnp = 0)).map
            (fun isnp => Line.row (outf2Row E d isnp)))
        else files.outf2 := by
  induction l generalizing files with
  | nil => cases h : files.outf2 <;> simp [h]
  | cons i l ih =>
    rw [List.foldl_cons, ih]
    by_cases h : proceed E d i = 0 <;> by_cases hw : E.writeLikes = 0 <;>
      cases ho : files.outf2 <;> simp [snpStep, h, hw, ho, List.filter_cons]

theorem main_outf (E : Env) (d : popComp_data_multiple) :
    (main E d).outf = Line.header outfHeader ::
      (eligibleSnps E d).map (fun isnp => Line.row (outfRow E d isnp)) := by
  unfold main eligibleSnps
  rw [foldl_snpStep_outf]
  rfl

theorem main_outf2 (E : Env) (d : popComp_data_multiple) :
    (main E d).outf2 = if E.writeLikes = 0 then
        some (Line.header outf2Header ::
          (eligibleSnps E d).map (fun isnp => Line.row (outf2Row E d isnp)))
      else none := by
  unfold main eligibleSnps
  rw [foldl_snpStep_outf2]
  by_cases hw : E.writeLikes = 0 <;> simp [hw]

theorem advanceComp_congr (d1 d2 : popComp_data_multiple) (isnp : Nat)
    (fuel i : Nat) (hi : i + fuel ≤ d1.ncomp)
    (h : ∀ iComp, iComp < d1.ncomp → d1.physpos iComp isnp = d2.physpos iComp isnp) :
    advanceComp d1 isnp fuel i = advanceComp d2 isnp fuel i := by
  induction fuel generalizing i with
  | zero => rfl
  | succ n ih =>
    unfold advanceComp
    rw [h i (by omega), ih (i + 1) (by omega)]

theorem iComp_valid (d : popComp_data_multiple) (isnp : Nat) :
    iComp d isnp < d.ncomp ∨ iComp d isnp = 0 := by
  unfold iComp
  simp only []
  split_ifs with h
  · right; rfl
  · left; omega

theorem iComp_congr (E : Env) (d1 d2 : popComp_data_multiple) (isnp : Nat)
    (h : sameSite E d1 d2 isnp) : iComp d1 isnp = iComp d2 isnp := by
  unfold iComp
  rw [advanceComp_congr d1 d2 isnp d1.ncomp 0 (by omega) (fun j hj => (h.2.1 j (Or.inl hj)).1),
    h.1]

theorem sameSite_rows (E : Env) (d1 d2 : popComp_data_multiple) (isnp : Nat)
    (h : sameSite E d1 d2 isnp) :
    proceed E d1 isnp = proceed E d2 isnp ∧ outfRow E d1 isnp = outfRow E d2 isnp
      ∧ outf2Row E d1 isnp = outf2Row E d2 isnp := by
  have hi := iComp_congr E d1 d2 isnp h
  obtain ⟨h1, h2, h3, h4, h5, h6, h7, h8⟩ := h.2.1 (iComp d1 isnp) (iComp_valid d1 isnp)
  obtain ⟨hx, hf, hd⟩ := h.2.2
  rw [hi] at h1 h2 h3 h4 h5 h6 h7 h8
  have e1 : thisPos d1 isnp = thisPos d2 isnp := by unfold thisPos; rw [hi, h1]
  have e2 : thisdaf d1 isnp = thisdaf d2 isnp := by unfold thisdaf; rw [hi, h3]
  have e3 : thisihs d1 isnp = thisihs d2 isnp := by unfold thisihs; rw [hi, h4]
  have e4 : thisnsl d1 isnp = thisnsl d2 isnp := by unfold thisnsl; rw [hi, h5]
  have e5 : thisihh d1 isnp = thisihh d2 isnp := by unfold thisihh; rw [hi, h6]
  have e6 : thisH12 d1 isnp = thisH12 d2 isnp := by unfold thisH12; rw [hi, h7]
  have e7 : thisiSAFE d1 isnp = thisiSAFE d2 isnp := by unfold thisiSAFE; rw [hi, h8]
  have e8 : thisxpehh E d1 isnp = thisxpehh E d2 isnp := hx
  have e9 : thisfst E d1 isnp = thisfst E d2 isnp := hf
  have e10 : thisdelDaf E d1 isnp = thisdelDaf E d2 isnp := hd
  have ep : proceed E d1 isnp = proceed E d2 isnp := by unfold proceed; rw [e1, e2]
  have ef : likesFreqIndex d1 isnp = likesFreqIndex d2 isnp := by unfold likesFreqIndex; rw [e2]
  have b1 : ihs_bf E d1 isnp = ihs_bf E d2 isnp := by
    unfold ihs_bf ihs_hitprob ihs_missprob ihs_minbf ihs_maxbf; rw [ef, e3]
  have b2 : nsl_bf E d1 isnp = nsl_bf E d2 isnp := by
    unfold nsl_bf nsl_hitprob nsl_missprob nsl_minbf nsl_maxbf; rw [ef, e4]
  have b3 : delihh_bf E d1 isnp = delihh_bf E d2 isnp := by
    unfold delihh_bf delihh_hitprob delihh_missprob delihh_minbf delihh_maxbf; rw [ef, e5]
  have b4 : H12_bf E d1 isnp = H12_bf E d2 isnp := by
    unfold H12_bf H12_hitprob H12_missprob H12_minbf H12_maxbf; rw [ef, e6]
  have b5 : iSAFE_bf E d1 isnp = iSAFE_bf E d2 isnp := by
    unfold iSAFE_bf iSAFE_hitprob iSAFE_missprob iSAFE_minbf iSAFE_maxbf; rw [ef, e7]
  have b6 : xpehh_bf E d1 isnp = xpehh_bf E d2 isnp := by
    unfold xpehh_bf xpehh_hitprob xpehh_missprob xpehh_minbf xpehh_maxbf; rw [ef, e8]
  have b7 : fst_bf E d1 isnp = fst_bf E d2 isnp := by
    unfold fst_bf fst_hitprob fst_missprob fst_minbf fst_maxbf; rw [ef, e9]
  have b8 : deldaf_bf E d1 isnp = deldaf_bf E d2 isnp := by
    unfold deldaf_bf deldaf_hitprob deldaf_missprob deldaf_minbf deldaf_maxbf; rw [ef, e10]
  have ec : compLikeRatio E d1 isnp = compLikeRatio E d2 isnp := by
    unfold compLikeRatio; rw [ep, b1, b2, b3, b4, b5, b6, b7, b8]
  refine ⟨ep, ?_, ?_⟩
  · unfold outfRow; rw [hi, h1, h2, e2, e3, e4, e5, e6, e7, e8, e9, e10, ec]
  · unfold outf2Row; rw [hi, h1, h2, e2, b1, b2, b3, b4, b5, b6, b7, b8, ec]

/-! ## C9 -/

/-- C9: the data lines of the primary output are exactly the rows of the
eligible SNPs in stored order (one per eligible SNP, none for a filtered
SNP); the data lines of the decomposition output, when it exists, come from
the same eligible SNPs; and the rows of a SNP, like its eligibility, are the
same in any two score tables that hold the same record for that SNP. -/
theorem main_rows_eligible_in_order (E : Env) (d : popComp_data_multiple) :
    (main E d).outf = Line.header outfHeader ::
        ((List.range d.nsnps).filter (fun isnp => proceed E d isnp = 0)).map
          (fun isnp => Line.row (outfRow E d isnp))
      ∧ (main E d).outf.length = 1 + ((List.range d.nsnps).filter
          (fun isnp => proceed E d isnp = 0)).length
      ∧ (∀ lines, (main E d).outf2 = some lines →
          lines = Line.header outf2Header ::
            ((List.range d.nsnps).filter (fun isnp => proceed E d isnp = 0)).map
              (fun isnp => Line.row (outf2Row E d isnp)))
      ∧ (∀ (d2 : popComp_data_multiple) (isnp : Nat), sameSite E d d2 isnp →
          proceed E d isnp = proceed E d2 isnp ∧ outfRow E d isnp = outfRow E d2 isnp
            ∧ outf2Row E d isnp = outf2Row E d2 isnp) := by
  refine ⟨main_outf E d, ?_, ?_, fun d2 isnp h => sameSite_rows E d d2 isnp h⟩
  · rw [main_outf]
    simp [eligibleSnps, Nat.add_comm]
  · intro lines h
    rw [main_outf2] at h
    by_cases hw : E.writeLikes = 0
    · rw [if_pos hw] at h
      exact (Option.some.inj h).symm
    · rw [if_neg hw] at h
      cases h

/-- Instance of C9: in the example SNP 1 (position 5, below minPos 10) is
filtered out, so the primary output holds the header and the rows of SNPs 0
and 2; the second example table holds the same record for SNP 0 and yields
the same row for it. -/
theorem main_rows_eligible_in_order_witness :
    (main exampleEnv exampleData).outf =
        [Line.header outfHeader, Line.row (outfRow exampleEnv exampleData 0),
          Line.row (outfRow exampleEnv exampleData 2)]
      ∧ sameSite exampleEnv exampleData exampleData2 0
      ∧ outfRow exampleEnv exampleData 0 = outfRow exampleEnv exampleData2 0 := by
  have hs : sameSite exampleEnv exampleData exampleData2 0 := by
    refine ⟨rfl, ?_, rfl, rfl, rfl⟩
    intro iComp _
    simp [exampleData, exampleData2]
  refine ⟨?_, hs, ((main_rows_eligible_in_order exampleEnv exampleData).2.2.2
    exampleData2 0 hs).2.1⟩
  rw [(main_rows_eligible_in_order exampleEnv exampleData).1]
  have h0 : proceed exampleEnv exampleData 0 = 0 := by
    simp [proceed, thisPos, thisdaf, iComp, advanceComp, exampleEnv, exampleData]
  have h1 : proceed exampleEnv exampleData 1 ≠ 0 := by
    simp [proceed, thisPos, thisdaf, iComp, advanceComp, exampleEnv, exampleData]
  have h2 : proceed exampleEnv exampleData 2 = 0 := by
    norm_num [proceed, thisPos, thisdaf, iComp, advanceComp, exampleEnv, exampleData, dbl_0_35]
  have hn : exampleData.nsnps = 3 := rfl
  simp [hn, List.range_succ, List.filter_cons, h0, h1, h2]

/-! ## C10 -/

/-- C10: the decomposition stream exists after the run if and only if
`writeLikes = 0`; when `writeLikes = 0` it holds its header followed by one
row per eligible SNP, for the same SNPs in the same order as the primary
output, and every decomposition row ends with the same composite ratio as the
primary row of that SNP (and starts with the same position, genetic position
and frequency); when `writeLikes` is not 0 the stream is never opened. -/
theorem main_outf2_iff_writeLikes (E : Env) (d : popComp_data_multiple) :
    ((main E d).outf2.isSome ↔ E.writeLikes = 0)
      ∧ (main E d).outf2 = (if E.writeLikes = 0 then
          some (Line.header outf2Header ::
            (eligibleSnps E d).map (fun isnp => Line.row (outf2Row E d isnp)))
        else none)
      ∧ (main E d).outf = Line.header outfHeader ::
          (eligibleSnps E d).map (fun isnp => Line.row (outfRow E d isnp))
      ∧ (∀ isnp, (outf2Row E d isnp).getLast? = (outfRow E d isnp).getLast?
          ∧ (outf2Row E d isnp).getLast? = some (Cell.e (compLikeRatio E d isnp))
          ∧ (outf2Row E d isnp).take 3 = (outfRow E d isnp).take 3
          ∧ (outf2Row E d isnp).length = (outfRow E d isnp).length) := by
  refine ⟨?_, main_outf2 E d, main_outf E d, ?_⟩
  · rw [main_outf2]
    by_cases hw : E.writeLikes = 0 <;> simp [hw]
  · intro isnp
    simp [outf2Row, outfRow]

/-! ## Further auxiliary lemmas -/

theorem ratio_prod_of_proceed (E : Env) (d : popComp_data_multiple) (isnp : Nat)
    (h : proceed E d isnp = 0) :
    compLikeRatio E d isnp
      = ((multOrder.filter (fun s => take E s = 0)).map (bf E d isnp)).prod := by
  unfold compLikeRatio
  rw [if_pos h]
  by_cases h1 : E.takeIhs = 0 <;> by_cases h2 : E.takeDelihh = 0 <;>
  by_cases h3 : E.takeNsl = 0 <;> by_cases h4 : E.takeFst = 0 <;>
  by_cases h5 : E.takeDeldaf = 0 <;> by_cases h6 : E.takeXpehh = 0 <;>
  by_cases h7 : E.takeH12 = 0 <;> by_cases h8 : E.takeiSAFE = 0 <;>
  simp [multOrder, List.filter, take, bf, h1, h2, h3, h4, h5, h6, h7, h8, mul_assoc]

theorem single_enabled_ratio (E : Env) (d : popComp_data_multiple) (isnp : Nat) (s : Stat)
    (h : proceed E d isnp = 0) (hs : take E s = 0) (ho : ∀ t, t ≠ s → take E t ≠ 0) :
    compLikeRatio E d isnp = bf E d isnp s := by
  rw [ratio_prod_of_proceed E d isnp h]
  have hf : ∀ t, (take E t = 0) ↔ t = s := by
    intro t
    constructor
    · intro ht
      by_contra hne
      exact ho t hne ht
    · intro ht
      rw [ht]; exact hs
  simp only [hf]
  cases s <;> simp [multOrder, List.filter]

theorem block_eq_uniform (E : Env) (d : popComp_data_multiple) (isnp : Nat) (s : Stat) :
    blockRecord E d isnp s
      = uniformRecord (likesTable E s) (likesFreqIndex d isnp) (statValue E d isnp s) := by
  cases s <;> rfl

theorem eps_pos : (0 : ℚ) < 2e-10 := by norm_num

theorem bf_pos_of_bounds (E : Env) (d : popComp_data_multiple) (isnp : Nat) (s : Stat)
    (hmin : 0 < minbf E d isnp s) (hmax : 0 < maxbf E d isnp s) : 0 < bf E d isnp s := by
  rw [bf_eq_catch, catch_cases]
  split_ifs with h1 h2 h3
  · exact div_pos (lt_trans eps_pos h1.2) (lt_trans eps_pos h1.1)
  · exact hmax
  · exact hmin
  · exact one_pos

theorem advanceComp_spec (d : popComp_data_multiple) (isnp : Nat) (fuel i : Nat) :
    i ≤ advanceComp d isnp fuel i ∧ advanceComp d isnp fuel i ≤ i + fuel
      ∧ (∀ j, i ≤ j → j < advanceComp d isnp fuel i → d.physpos j isnp = 0)
      ∧ (advanceComp d isnp fuel i < i + fuel → d.physpos (advanceComp d isnp fuel i) isnp ≠ 0) := by
  induction fuel generalizing i with
  | zero =>
    refine ⟨le_refl _, le_refl _, ?_, ?_⟩
    · intro j h1 h2
      simp only [advanceComp] at h2
      omega
    · intro h
      simp only [advanceComp] at h
      omega
  | succ n ih =>
    unfold advanceComp
    by_cases hp : d.physpos i isnp ≠ 0
    · rw [if_pos hp]
      refine ⟨le_refl _, by omega, ?_, fun _ => hp⟩
      intro j h1 h2
      omega
    · rw [if_neg hp]
      obtain ⟨a1, a2, a3, a4⟩ := ih (i + 1)
      refine ⟨by omega, by omega, ?_, ?_⟩
      · intro j h1 h2
        by_cases hj : j = i
        · rw [hj]; exact not_not.mp hp
        · exact a3 j (by omega) h2
      · intro h
        exact a4 (by omega)

/-! ## C11 -/

/-- C11: for an eligible SNP with derived allele frequency 0.1 the stratum index
is 0, and if the iHS table gives hit 0.8 and miss 0.2 there while the other
seven statistics are excluded, the composite ratio is exactly 4; in general,
when exactly one statistic is enabled the composite ratio is the Bayes factor
of that statistic, computed from its own table at the stratum of the SNP. -/
theorem compLikeRatio_single_statistic (E : Env) (d : popComp_data_multiple) (isnp : Nat)
    (hp : proceed E d isnp = 0) :
    (thisdaf d isnp = 0.1 →
        E.ihs_likes_data.getHitProb 0 (d.ihs_normed (iComp d isnp) isnp) = 0.8 →
        E.ihs_likes_data.getMissProb (d.ihs_normed (iComp d isnp) isnp) = 0.2 →
        E.takeIhs = 0 → (∀ t, t ≠ Stat.ihs → take E t ≠ 0) →
        likesFreqIndex d isnp = 0 ∧ compLikeRatio E d isnp = 4)
      ∧ (∀ s, take E s = 0 → (∀ t, t ≠ s → take E t ≠ 0) →
          compLikeRatio E d isnp = bf E d isnp s
            ∧ bf E d isnp s = (uniformRecord (likesTable E s) (likesFreqIndex d isnp)
                (statValue E d isnp s)).bf) := by
  constructor
  · intro hdaf hhit hmiss htake hothers
    have hidx : likesFreqIndex d isnp = 0 := by
      unfold likesFreqIndex
      rw [hdaf]
      norm_num [dbl_0_35]
    refine ⟨hidx, ?_⟩
    rw [single_enabled_ratio E d isnp .ihs hp htake hothers]
    have h1 : hitprob E d isnp .ihs = 0.8 := by
      show E.ihs_likes_data.getHitProb (likesFreqIndex d isnp) (thisihs d isnp) = 0.8
      rw [hidx]; exact hhit
    have h2 : missprob E d isnp .ihs = 0.2 := hmiss
    rw [bf_eq_catch, catch_cases, h1, h2]
    norm_num
  · intro s hs ho
    refine ⟨single_enabled_ratio E d isnp s hp hs ho, ?_⟩
    exact congrArg StatRecord.bf (block_eq_uniform E d isnp s)

/-- Instance of C11: SNP 0 of the example has derived allele frequency 0.1 and
is eligible; with hit 0.8 and miss 0.2 for iHS and the other statistics
excluded, its composite ratio is 4. -/
theorem compLikeRatio_single_statistic_witness :
    proceed exampleEnvIhs exampleData 0 = 0 ∧ thisdaf exampleData 0 = 0.1
      ∧ likesFreqIndex exampleData 0 = 0 ∧ compLikeRatio exampleEnvIhs exampleData 0 = 4 :=
  have hp : proceed exampleEnvIhs exampleData 0 = 0 := by
    simp [proceed, thisPos, thisdaf, iComp, advanceComp, exampleEnvIhs, exampleData]
  have hd : thisdaf exampleData 0 = 0.1 := by
    norm_num [thisdaf, iComp, advanceComp, exampleData]
  ⟨hp, hd,
    (compLikeRatio_single_statistic exampleEnvIhs exampleData 0 hp).1 hd
      (by simp [exampleEnvIhs, constTable]) (by simp [exampleEnvIhs, constTable])
      (by simp [exampleEnvIhs]) (by intro t ht; cases t <;> simp_all [take, exampleEnvIhs])⟩

/-! ## C12 -/

/-- C12: when the table has at least one comparison, the comparison index
chosen for a SNP is a valid index; it is the least index whose physical
position at the SNP is non-zero when there is one, and 0 when every
comparison has position 0; and the position, genetic position, derived allele
frequency, iHS, nSL, delIHH, H12 and iSAFE of the SNP are all read at that
index. -/
theorem iComp_least_nonzero (E : Env) (d : popComp_data_multiple) (isnp : Nat)
    (h : 0 < d.ncomp) :
    iComp d isnp < d.ncomp
      ∧ ((∃ j, j < d.ncomp ∧ d.physpos j isnp ≠ 0) →
          d.physpos (iComp d isnp) isnp ≠ 0
            ∧ ∀ j, j < iComp d isnp → d.physpos j isnp = 0)
      ∧ ((∀ j, j < d.ncomp → d.physpos j isnp = 0) → iComp d isnp = 0)
      ∧ thisPos d isnp = d.physpos (iComp d isnp) isnp
      ∧ thisdaf d isnp = d.daf_selpop (iComp d isnp) isnp
      ∧ thisihs d isnp = d.ihs_normed (iComp d isnp) isnp
      ∧ thisnsl d isnp = d.nsl_normed (iComp d isnp) isnp
      ∧ thisihh d isnp = d.delihh_normed (iComp d isnp) isnp
      ∧ thisH12 d isnp = d.H12 (iComp d isnp) isnp
      ∧ thisiSAFE d isnp = d.iSAFE (iComp d isnp) isnp
      ∧ (outfRow E d isnp).take 3 = [Cell.d (d.physpos (iComp d isnp) isnp),
          Cell.f (d.genpos (iComp d isnp) isnp), Cell.f (d.daf_selpop (iComp d isnp) isnp)] := by
  obtain ⟨a1, a2, a3, a4⟩ := advanceComp_spec d isnp d.ncomp 0
  refine ⟨?_, ?_, ?_, rfl, rfl, rfl, rfl, rfl, rfl, rfl, rfl⟩
  · rcases iComp_valid d isnp with hv | hv
    · exact hv
    · rw [hv]; exact h
  · rintro ⟨j, hj, hne⟩
    have hlt : advanceComp d isnp d.ncomp 0 < d.ncomp := by
      by_contra hge
      exact hne (a3 j (Nat.zero_le j) (by omega))
    have hi : iComp d isnp = advanceComp d isnp d.ncomp 0 := by
      unfold iComp
      simp only []
      rw [if_neg (by omega)]
    rw [hi]
    exact ⟨a4 (by omega), fun k hk => a3 k (Nat.zero_le k) hk⟩
  · intro hall
    unfold iComp
    simp only []
    split_ifs with hge
    · rfl
    · exfalso
      exact a4 (by omega) (hall _ (by omega))

/-- Instance of C12: SNP 0 of the example has position 0 in comparison 0 and
position 100 in comparison 1, so comparison 1 is chosen. -/
theorem iComp_least_nonzero_witness :
    0 < exampleData.ncomp ∧ iComp exampleData 0 < exampleData.ncomp
      ∧ iComp exampleData 0 = 1 ∧ thisPos exampleData 0 = 100 :=
  ⟨by simp [exampleData],
   (iComp_least_nonzero exampleEnv exampleData 0 (by simp [exampleData])).1,
   by simp [iComp, advanceComp, exampleData],
   by simp [thisPos, iComp, advanceComp, exampleData]⟩

/-! ## C16 -/

/-- C16: for each of the eight statistics, the hit probability, miss
probability, Bayes factor, minimum and maximum Bayes factor left by its
hand-written block are those of the one uniform function applied to the own
table of the statistic, the stratum index of the SNP and the own value of the
statistic; and whenever neither probability is exactly 2e-10 that Bayes factor
is the one the resolver of the specification gives on the same four
values. -/
theorem blocks_refine_uniform (E : Env) (d : popComp_data_multiple) (isnp : Nat) (s : Stat) :
    blockRecord E d isnp s
        = uniformRecord (likesTable E s) (likesFreqIndex d isnp) (statValue E d isnp s)
      ∧ hitprob E d isnp s
        = (likesTable E s).getHitProb (likesFreqIndex d isnp) (statValue E d isnp s)
      ∧ missprob E d isnp s = (likesTable E s).getMissProb (statValue E d isnp s)
      ∧ minbf E d isnp s = (likesTable E s).getMinBf (likesFreqIndex d isnp)
      ∧ maxbf E d isnp s = (likesTable E s).getMaxBf (likesFreqIndex d isnp)
      ∧ bf E d isnp s = catchPseudocounts (hitprob E d isnp s) (missprob E d isnp s)
          (minbf E d isnp s) (maxbf E d isnp s)
      ∧ (hitprob E d isnp s ≠ 2e-10 → missprob E d isnp s ≠ 2e-10 →
          bf E d isnp s = bayesFactor (hitprob E d isnp s) (missprob E d isnp s)
            (minbf E d isnp s) (maxbf E d isnp s)) := by
  refine ⟨block_eq_uniform E d isnp s, ?_, ?_, ?_, ?_, bf_eq_catch E d isnp s, ?_⟩
  · cases s <;> rfl
  · cases s <;> rfl
  · cases s <;> rfl
  · cases s <;> rfl
  · intro hh hm
    rw [bf_eq_catch, catch_cases]
    unfold bayesFactor
    rcases lt_or_gt_of_ne hm with h1 | h1 <;> rcases lt_or_gt_of_ne hh with h2 | h2 <;>
      simp [h1, h2, h1.not_lt, h2.not_lt, h1.le, h2.le, h1.not_le, h2.not_le]

/-- Instance of C16: the iHS block of the example leaves hit 4/5, miss 1/5,
Bayes factor 4 and the bounds 1/100 and 100 of the iHS table, and 4 is also
what the resolver of the specification gives. -/
theorem blocks_refine_uniform_witness :
    blockRecord exampleEnv exampleData 0 Stat.ihs = StatRecord.mk (4 / 5) (1 / 5) 4 (1 / 100) 100
      ∧ hitprob exampleEnv exampleData 0 Stat.ihs ≠ 2e-10
      ∧ missprob exampleEnv exampleData 0 Stat.ihs ≠ 2e-10
      ∧ bf exampleEnv exampleData 0 Stat.ihs
        = bayesFactor (hitprob exampleEnv exampleData 0 Stat.ihs)
            (missprob exampleEnv exampleData 0 Stat.ihs)
            (minbf exampleEnv exampleData 0 Stat.ihs) (maxbf exampleEnv exampleData 0 Stat.ihs) :=
  have hh : hitprob exampleEnv exampleData 0 Stat.ihs ≠ 2e-10 := by
    norm_num [hitprob, ihs_hitprob, exampleEnv, constTable]
  have hm : missprob exampleEnv exampleData 0 Stat.ihs ≠ 2e-10 := by
    norm_num [missprob, ihs_missprob, exampleEnv, constTable]
  ⟨by
    rw [(blocks_refine_uniform exampleEnv exampleData 0 Stat.ihs).1]
    norm_num [uniformRecord, likesTable, catchPseudocounts, exampleEnv, constTable],
   hh, hm, (blocks_refine_uniform exampleEnv exampleData 0 Stat.ihs).2.2.2.2.2.2 hh hm⟩

/-! ## C17 -/

/-- C17: the primary row has 12 fields: position, genetic position, frequency,
the eight statistic values in column order, and the composite ratio, matching
the 12 names of the primary header; the decomposition row has the same first
three fields and the same last field, with the eight Bayes factors in the
same column order, matching the decomposition header. -/
theorem rows_follow_headers (E : Env) (d : popComp_data_multiple) (isnp : Nat) :
    outfRow E d isnp
        = [Cell.d (d.physpos (iComp d isnp) isnp), Cell.f (d.genpos (iComp d isnp) isnp),
            Cell.f (thisdaf d isnp)]
          ++ columnOrder.map (fun s => Cell.f (statValue E d isnp s))
          ++ [Cell.e (compLikeRatio E d isnp)]
      ∧ outf2Row E d isnp
        = [Cell.d (d.physpos (iComp d isnp) isnp), Cell.f (d.genpos (iComp d isnp) isnp),
            Cell.f (thisdaf d isnp)]
          ++ columnOrder.map (fun s => Cell.f (bf E d isnp s))
          ++ [Cell.e (compLikeRatio E d isnp)]
      ∧ outfHeader = ["physPos", "genPos", "popDAF"] ++ columnOrder.map outfColumn
          ++ ["compLikeRatio_CMS"]
      ∧ outf2Header = ["physPos", "genPos", "popDAF"] ++ columnOrder.map outf2Column
          ++ ["compLikeRatio_CMS"]
      ∧ (outfRow E d isnp).length = 12 ∧ (outf2Row E d isnp).length = 12
      ∧ outfHeader.length = 12 ∧ outf2Header.length = 12 := by
  refine ⟨rfl, rfl, rfl, rfl, rfl, rfl, rfl, rfl⟩

/-! ## C18 -/

/-- C18: in every block the division is evaluated only under the test
`miss > 2e-10`, so it never divides by zero; the three tests are pairwise
exclusive; the Bayes factor is one of 1, hit / miss, maxBf and minBf; and
running the three statements in any of the six orders gives the same Bayes
factor. -/
theorem bf_no_division_by_zero (E : Env) (d : popComp_data_multiple) (isnp : Nat) (s : Stat) :
    catchPseudocountsChecked (hitprob E d isnp s) (missprob E d isnp s)
        (minbf E d isnp s) (maxbf E d isnp s) = some (bf E d isnp s)
      ∧ ((missprob E d isnp s > 2e-10 ∧ hitprob E d isnp s > 2e-10) →
          missprob E d isnp s ≠ 0)
      ∧ ¬ ((missprob E d isnp s > 2e-10 ∧ hitprob E d isnp s > 2e-10)
          ∧ (missprob E d isnp s < 2e-10 ∧ hitprob E d isnp s > 2e-10))
      ∧ ¬ ((missprob E d isnp s > 2e-10 ∧ hitprob E d isnp s > 2e-10)
          ∧ (hitprob E d isnp s < 2e-10 ∧ missprob E d isnp s > 2e-10))
      ∧ ¬ ((missprob E d isnp s < 2e-10 ∧ hitprob E d isnp s > 2e-10)
          ∧ (hitprob E d isnp s < 2e-10 ∧ missprob E d isnp s > 2e-10))
      ∧ (bf E d isnp s = 1 ∨ bf E d isnp s = hitprob E d isnp s / missprob E d isnp s
          ∨ bf E d isnp s = maxbf E d isnp s ∨ bf E d isnp s = minbf E d isnp s)
      ∧ (let t1 := ratioTest (hitprob E d isnp s) (missprob E d isnp s)
         let t2 := maxTest (hitprob E d isnp s) (missprob E d isnp s) (maxbf E d isnp s)
         let t3 := minTest (hitprob E d isnp s) (missprob E d isnp s) (minbf E d isnp s)
         t3 (t2 (t1 1)) = bf E d isnp s ∧ t2 (t3 (t1 1)) = bf E d isnp s
           ∧ t3 (t1 (t2 1)) = bf E d isnp s ∧ t1 (t3 (t2 1)) = bf E d isnp s
           ∧ t2 (t1 (t3 1)) = bf E d isnp s ∧ t1 (t2 (t3 1)) = bf E d isnp s) := by
  have he := eps_pos
  rw [bf_eq_catch, catch_cases]
  unfold catchPseudocountsChecked checkedDiv ratioTest maxTest minTest
  rcases lt_trichotomy (missprob E d isnp s) 2e-10 with hm | hm | hm <;>
  rcases lt_trichotomy (hitprob E d isnp s) 2e-10 with hh | hh | hh <;>
  first
    | simp [hm, hh, hm.not_lt, hh.not_lt, (lt_trans he hm).ne']
    | simp [hm, hh, hm.not_lt, hh.not_lt]

/-! ## Lemmas on the parameter loops -/

theorem strsep_tokens (s : List Char) :
    strsepTokens s = (strsep s).1 ::
      (match (strsep s).2 with
        | none => []
        | some r => strsepTokens r) := by
  induction s with
  | nil => rfl
  | cons c cs ih =>
    rw [strsepTokens, strsep]
    by_cases hc : isDelim c = true
    · simp [hc]
    · simp only [hc]
      rw [ih]
      simp

theorem strsep_length (s r : List Char) (h : (strsep s).2 = some r) : r.length < s.length := by
  induction s with
  | nil => simp [strsep] at h
  | cons c cs ih =>
    rw [strsep] at h
    by_cases hc : isDelim c = true
    · simp [hc] at h
      rw [← h]
      simp
    · simp [hc] at h
      have := ih h
      simp
      omega

theorem tokenLoop_none (body : RunParams → Nat → List Char → RunParams) (fuel i : Nat)
    (P : RunParams) : tokenLoop body fuel none i P = P := by
  cases fuel <;> rfl

theorem tokenLoop_eq_fold (body : RunParams → Nat → List Char → RunParams) (fuel : Nat)
    (s : List Char) (i : Nat) (P : RunParams) (h : s.length < fuel) :
    tokenLoop body fuel (some s) i P = tokenFold body (strsepTokens s) i P := by
  induction fuel generalizing s i P with
  | zero => omega
  | succ n ih =>
    rw [strsep_tokens s]
    unfold tokenLoop
    cases hr : (strsep s).2 with
    | none => simp [tokenFold, tokenLoop_none]
    | some r =>
      have hlen := strsep_length s r hr
      rw [ih r (i + 1) _ (by omega)]
      simp [tokenFold]

theorem takeFold_ge (atoi : List Char → Int) (ts : List (List Char)) (i : Nat) (P : RunParams)
    (h : 8 ≤ i) : tokenFold (takeBody atoi) ts i P = P := by
  induction ts generalizing i P with
  | nil => rfl
  | cons t ts ih =>
    unfold tokenFold
    rw [ih (i + 1) _ (by omega)]
    unfold takeBody
    simp [show i ≠ 0 by omega, show i ≠ 1 by omega, show i ≠ 2 by omega, show i ≠ 3 by omega,
      show i ≠ 4 by omega, show i ≠ 5 by omega, show i ≠ 6 by omega, show i ≠ 7 by omega]

theorem paramFold_ge (atoi : List Char → Int) (atof : List Char → ℚ) (ts : List (List Char))
    (i : Nat) (P : RunParams) (h : 4 ≤ i) : tokenFold (paramBody atoi atof) ts i P = P := by
  induction ts generalizing i P with
  | nil => rfl
  | cons t ts ih =>
    unfold tokenFold
    rw [ih (i + 1) _ (by omega)]
    unfold paramBody
    simp [show i ≠ 0 by omega, show i ≠ 1 by omega, show i ≠ 2 by omega, show i ≠ 3 by omega]

theorem paramFold_spec (atoi : List Char → Int) (atof : List Char → ℚ) (ts : List (List Char))
    (P : RunParams) :
    (tokenFold (paramBody atoi atof) ts 0 P).minPos = (ts[0]?.map atoi).getD P.minPos
      ∧ (tokenFold (paramBody atoi atof) ts 0 P).maxPos = (ts[1]?.map atoi).getD P.maxPos
      ∧ (tokenFold (paramBody atoi atof) ts 0 P).minDaf = (ts[2]?.map atof).getD P.minDaf
      ∧ (tokenFold (paramBody atoi atof) ts 0 P).writeLikes = (ts[3]?.map atoi).getD P.writeLikes
      ∧ ∀ s, (tokenFold (paramBody atoi atof) ts 0 P).take s = P.take s := by
  rcases ts with _ | ⟨t0, _ | ⟨t1, _ | ⟨t2, _ | ⟨t3, ts⟩⟩⟩⟩ <;>
    simp [tokenFold, paramBody, paramFold_ge] <;> intro s <;> cases s <;> rfl

theorem takeFold_spec (atoi : List Char → Int) (ts : List (List Char)) (P : RunParams) :
    (tokenFold (takeBody atoi) ts 0 P).minPos = P.minPos
      ∧ (tokenFold (takeBody atoi) ts 0 P).maxPos = P.maxPos
      ∧ (tokenFold (takeBody atoi) ts 0 P).minDaf = P.minDaf
      ∧ (tokenFold (takeBody atoi) ts 0 P).writeLikes = P.writeLikes
      ∧ ∀ (k : Nat) (s : Stat), flagOrder[k]? = some s →
          (tokenFold (takeBody atoi) ts 0 P).take s = (ts[k]?.map atoi).getD (P.take s) := by
  have hk : ∀ (k : Nat) (s : Stat), flagOrder[k]? = some s → k < 8 ∧ flagOrder[k]? = some s := by
    intro k s h
    refine ⟨?_, h⟩
    by_contra hge
    have hnone : flagOrder[k]? = none := List.getElem?_eq_none (by simp [flagOrder]; omega)
    rw [hnone] at h
    cases h
  rcases ts with _ | ⟨t0, _ | ⟨t1, _ | ⟨t2, _ | ⟨t3, _ | ⟨t4, _ | ⟨t5, _ | ⟨t6, _ | ⟨t7, ts⟩⟩⟩⟩⟩⟩⟩⟩ <;>
    refine ⟨?_, ?_, ?_, ?_, ?_⟩ <;>
    first
      | (simp [tokenFold, takeBody, takeFold_ge]; done)
      | (intro k s h
         obtain ⟨hlt, h⟩ := hk k s h
         interval_cases k <;> simp [flagOrder] at h <;> subst h <;>
           simp [tokenFold, takeBody, takeFold_ge, RunParams.take])

theorem readParams_nil (atoi : List Char → Int) (atof : List Char → ℚ) (writeLikes0 : Int) :
    readParams atoi atof writeLikes0 []
      = RunParams.mk (-1) 2147483647 0 writeLikes0 0 0 0 0 0 0 0 0 := rfl

theorem readParams_one (atoi : List Char → Int) (atof : List Char → ℚ) (writeLikes0 : Int)
    (line9 : List Char) :
    readParams atoi atof writeLikes0 [line9]
      = tokenFold (paramBody atoi atof) (strsepTokens line9) 0
          (RunParams.mk (-1) 2147483647 0 writeLikes0 0 0 0 0 0 0 0 0) := by
  unfold readParams
  simp only [fgets]
  rw [tokenLoop_eq_fold _ _ _ _ _ (Nat.lt_succ_self _)]

theorem readParams_two (atoi : List Char → Int) (atof : List Char → ℚ) (writeLikes0 : Int)
    (line9 line10 : List Char) (rest : List (List Char)) :
    readParams atoi atof writeLikes0 (line9 :: line10 :: rest)
      = tokenFold (takeBody atoi) (strsepTokens line10) 0
          (tokenFold (paramBody atoi atof) (strsepTokens line9) 0
            (RunParams.mk (-1) 2147483647 0 writeLikes0 0 0 0 0 0 0 0 0)) := by
  unfold readParams
  simp only [fgets]
  rw [tokenLoop_eq_fold _ _ _ _ _ (Nat.lt_succ_self _),
    tokenLoop_eq_fold _ _ _ _ _ (Nat.lt_succ_self _)]

theorem take_envOf (P : RunParams) (E : Env) (s : Stat) : take (envOf P E) s = P.take s := by
  cases s <;> rfl

/-! ## C13 -/

/-- C13 (what the code does): without line 9 the run parameters are minPos -1,
maxPos 2147483647, minDaf 0 and all flags 0, but `writeLikes` is whatever
indeterminate value the variable held, since no default is assigned to it;
with line 9 the fields 1 to 4 that it carries set minPos, maxPos, minDaf and
writeLikes in that order, the others keep those values; so without line 9 and
with a non-zero indeterminate value the decomposition stream is not opened. -/
theorem readParams_writeLikes_indeterminate (atoi : List Char → Int) (atof : List Char → ℚ)
    (writeLikes0 : Int) :
    readParams atoi atof writeLikes0 []
        = RunParams.mk (-1) 2147483647 0 writeLikes0 0 0 0 0 0 0 0 0
      ∧ (∀ (line9 : List Char) (rest : List (List Char)),
          (readParams atoi atof writeLikes0 (line9 :: rest)).minPos
              = (((strsepTokens line9)[0]?).map atoi).getD (-1)
            ∧ (readParams atoi atof writeLikes0 (line9 :: rest)).maxPos
              = (((strsepTokens line9)[1]?).map atoi).getD 2147483647
            ∧ (readParams atoi atof writeLikes0 (line9 :: rest)).minDaf
              = (((strsepTokens line9)[2]?).map atof).getD 0
            ∧ (readParams atoi atof writeLikes0 (line9 :: rest)).writeLikes
              = (((strsepTokens line9)[3]?).map atoi).getD writeLikes0)
      ∧ (∀ (E : Env) (d : popComp_data_multiple), writeLikes0 ≠ 0 →
          (main (envOf (readParams atoi atof writeLikes0 []) E) d).outf2 = none) := by
  refine ⟨rfl, ?_, ?_⟩
  · intro line9 rest
    obtain ⟨p1, p2, p3, p4, _⟩ := paramFold_spec atoi atof (strsepTokens line9)
      (RunParams.mk (-1) 2147483647 0 writeLikes0 0 0 0 0 0 0 0 0)
    cases rest with
    | nil =>
      rw [readParams_one]
      exact ⟨p1, p2, p3, p4⟩
    | cons line10 rest =>
      rw [readParams_two]
      obtain ⟨q1, q2, q3, q4, _⟩ := takeFold_spec atoi (strsepTokens line10)
        (tokenFold (paramBody atoi atof) (strsepTokens line9) 0
          (RunParams.mk (-1) 2147483647 0 writeLikes0 0 0 0 0 0 0 0 0))
      rw [q1, q2, q3, q4]
      exact ⟨p1, p2, p3, p4⟩
  · intro E d hw
    rw [main_outf2, if_neg]
    exact hw

/-! ## C14 -/

/-- C14 fails as stated: on the flags line `0  1 1 1 1 1 1 1`, whose second
whitespace-separated field is `1`, the second token that `strsep` returns is
the empty text between the two blanks, so the flag of nSL, the second
statistic, is set to 0 and not to 1; the third token is `1` and sets the flag
of delIHH. -/
theorem second_field_counterexample :
    (wsFields exampleBlankLine)[1]? = some ['1']
      ∧ exampleAtoi ['1'] = 1
      ∧ (strsepTokens exampleBlankLine)[1]? = some []
      ∧ take (envOf (readParams exampleAtoi (fun _ => 0) 0 [exampleParamLine, exampleBlankLine])
          exampleEnv) Stat.nsl = 0
      ∧ take (envOf (readParams exampleAtoi (fun _ => 0) 0 [exampleParamLine, exampleBlankLine])
          exampleEnv) Stat.nsl
        ≠ (((wsFields exampleBlankLine)[1]?).map exampleAtoi).getD 0 := by
  have hq := (takeFold_spec exampleAtoi (strsepTokens exampleBlankLine)
    (tokenFold (paramBody exampleAtoi (fun _ => 0)) (strsepTokens exampleParamLine) 0
      (RunParams.mk (-1) 2147483647 0 0 0 0 0 0 0 0 0 0))).2.2.2.2 1 Stat.nsl rfl
  have hp := (paramFold_spec exampleAtoi (fun _ => 0) (strsepTokens exampleParamLine)
    (RunParams.mk (-1) 2147483647 0 0 0 0 0 0 0 0 0 0)).2.2.2.2 Stat.nsl
  have hnsl : take (envOf (readParams exampleAtoi (fun _ => 0) 0
      [exampleParamLine, exampleBlankLine]) exampleEnv) Stat.nsl = 0 := by
    rw [take_envOf, readParams_two, hq, hp]
    decide
  refine ⟨by decide, by decide, by decide, hnsl, ?_⟩
  rw [hnsl]
  decide

/-- C14 (amended): when the file has a line 10, the k-th token that `strsep`
returns on it (k = 1..8) sets the exclusion flag of the k-th statistic in the
order iHS, nSL, delIHH, H12, iSAFE, XP-EHH, Fst, delDAF, and a flag without a
token stays 0; every single space or tab ends a token, so when no token is
empty (each separator is one space or tab and the line does not start with
one) the tokens are the whitespace-separated fields and the k-th field sets
the k-th flag; without a line 10 all flags are 0; and at an eligible SNP the
composite ratio is the product of the Bayes factors of exactly the statistics
whose own flag is 0. -/
theorem flags_follow_line10 (atoi : List Char → Int) (atof : List Char → ℚ) (writeLikes0 : Int)
    (line9 line10 : List Char) (rest : List (List Char)) (E : Env) :
    flagOrder = [Stat.ihs, Stat.nsl, Stat.delihh, Stat.H12, Stat.iSAFE, Stat.xpehh, Stat.fst,
        Stat.deldaf]
      ∧ (∀ (k : Nat) (s : Stat), flagOrder[k]? = some s →
          take (envOf (readParams atoi atof writeLikes0 (line9 :: line10 :: rest)) E) s
            = (((strsepTokens line10)[k]?).map atoi).getD 0)
      ∧ ((∀ token, token ∈ strsepTokens line10 → token ≠ []) →
          wsFields line10 = strsepTokens line10
            ∧ ∀ (k : Nat) (s : Stat), flagOrder[k]? = some s →
              take (envOf (readParams atoi atof writeLikes0 (line9 :: line10 :: rest)) E) s
                = (((wsFields line10)[k]?).map atoi).getD 0)
      ∧ (∀ s, take (envOf (readParams atoi atof writeLikes0 [line9]) E) s = 0)
      ∧ (∀ s, take (envOf (readParams atoi atof writeLikes0 []) E) s = 0)
      ∧ (∀ (P : RunParams) (d : popComp_data_multiple) (isnp : Nat),
          proceed (envOf P E) d isnp = 0 →
          compLikeRatio (envOf P E) d isnp
            = ((multOrder.filter (fun s => P.take s = 0)).map (bf (envOf P E) d isnp)).prod) := by
  have htok : ∀ (k : Nat) (s : Stat), flagOrder[k]? = some s →
      take (envOf (readParams atoi atof writeLikes0 (line9 :: line10 :: rest)) E) s
        = (((strsepTokens line10)[k]?).map atoi).getD 0 := by
    intro k s hk
    rw [take_envOf, readParams_two]
    obtain ⟨_, _, _, _, q⟩ := takeFold_spec atoi (strsepTokens line10)
      (tokenFold (paramBody atoi atof) (strsepTokens line9) 0
        (RunParams.mk (-1) 2147483647 0 writeLikes0 0 0 0 0 0 0 0 0))
    obtain ⟨_, _, _, _, p⟩ := paramFold_spec atoi atof (strsepTokens line9)
      (RunParams.mk (-1) 2147483647 0 writeLikes0 0 0 0 0 0 0 0 0)
    rw [q k s hk, p s]
    cases s <;> rfl
  refine ⟨rfl, htok, ?_, ?_, ?_, ?_⟩
  · intro hne
    have hw : wsFields line10 = strsepTokens line10 := by
      unfold wsFields
      rw [List.filter_eq_self]
      intro token ht
      have := hne token ht
      cases token with
      | nil => exact absurd rfl this
      | cons c cs => rfl
    refine ⟨hw, ?_⟩
    rw [hw]
    exact htok
  · intro s
    rw [take_envOf, readParams_one]
    obtain ⟨_, _, _, _, p⟩ := paramFold_spec atoi atof (strsepTokens line9)
      (RunParams.mk (-1) 2147483647 0 writeLikes0 0 0 0 0 0 0 0 0)
    rw [p s]
    cases s <;> rfl
  · intro s
    rw [take_envOf, readParams_nil]
    cases s <;> rfl
  · intro P d isnp hp
    rw [ratio_prod_of_proceed _ d isnp hp]
    simp only [take_envOf]

/-- Instance of the amended C14: on the flags line `1 0 1` no token is empty,
the fields are the tokens, and the flags of iHS and delIHH are 1 while the
flags of nSL and H12 are 0. -/
theorem flags_follow_line10_witness :
    (∀ token, token ∈ strsepTokens exampleFlagsLine → token ≠ [])
      ∧ take (envOf (readParams exampleAtoi (fun _ => 0) 0 [exampleParamLine, exampleFlagsLine])
        exampleEnv) Stat.ihs = 1
      ∧ take (envOf (readParams exampleAtoi (fun _ => 0) 0 [exampleParamLine, exampleFlagsLine])
        exampleEnv) Stat.nsl = 0
      ∧ take (envOf (readParams exampleAtoi (fun _ => 0) 0 [exampleParamLine, exampleFlagsLine])
        exampleEnv) Stat.delihh = 1
      ∧ take (envOf (readParams exampleAtoi (fun _ => 0) 0 [exampleParamLine, exampleFlagsLine])
        exampleEnv) Stat.H12 = 0 := by
  have hne : ∀ token, token ∈ strsepTokens exampleFlagsLine → token ≠ [] := by decide
  have h := ((flags_follow_line10 exampleAtoi (fun _ => 0) 0 exampleParamLine exampleFlagsLine []
    exampleEnv).2.2.1 hne).2
  refine ⟨hne, ?_, ?_, ?_, ?_⟩
  · rw [h 0 Stat.ihs rfl]; decide
  · rw [h 1 Stat.nsl rfl]; decide
  · rw [h 2 Stat.delihh rfl]; decide
  · rw [h 3 Stat.H12 rfl]; decide

/-! ## C15 -/

/-- C15 fails as stated: with two arguments (`argc = 3`) the program prints
the usage message and ends by `exit(0)`, so its exit status is 0, not
non-zero. -/
theorem usage_exit_status_counterexample :
    program 3 (fun _ _ => exampleData) exampleAtoi (fun _ => 0) 0 [] exampleEnv
        = Outcome.exited 0 [usage]
      ∧ ¬ (exitStatus (program 3 (fun _ _ => exampleData) exampleAtoi (fun _ => 0) 0 []
          exampleEnv) ≠ 0) := by
  constructor
  · rfl
  · intro h
    exact h rfl

/-- C15 (amended): with fewer than 3 arguments (`argc - 1 < 3`) the program
only prints the usage message and ends with exit status 0, whatever the
loader, the parameter file and the tables are (none of them is used and no
output stream exists); with 3 or more arguments the number of comparisons
handed to the loader is the number of arguments minus 2, and the program
returns 0 after the SNP loop. -/
theorem program_usage_or_run (argc : Int)
    (get_popComp_completeData : Int → Int → popComp_data_multiple)
    (atoi : List Char → Int) (atof : List Char → ℚ) (writeLikes0 : Int)
    (lines : List (List Char)) (E : Env) :
    program argc get_popComp_completeData atoi atof writeLikes0 lines E
      = if argc - 1 < 3 then Outcome.exited 0 [usage]
        else Outcome.returned 0 (argc - 1 - 2)
          (main (envOf (readParams atoi atof writeLikes0 lines) E)
            (get_popComp_completeData (argc - 1 - 2) argc)) := by
  unfold program
  by_cases h : argc ≤ 3
  · rw [if_pos h, if_pos (by omega)]
  · rw [if_neg h, if_neg (by omega)]
    have e : argc - 3 = argc - 1 - 2 := by omega
    simp only [e]

/-! ## Lemmas on tables given by bins -/

theorem foldl_min_le_init (rs : List ℚ) (a : ℚ) : rs.foldl min a ≤ a := by
  induction rs generalizing a with
  | nil => exact le_refl _
  | cons r rs ih =>
    rw [List.foldl_cons]
    exact le_trans (ih (min a r)) (min_le_left a r)

theorem foldl_min_le (rs : List ℚ) (a x : ℚ) (h : x = a ∨ x ∈ rs) : rs.foldl min a ≤ x := by
  induction rs generalizing a with
  | nil =>
    rcases h with h | h
    · rw [h]; exact le_refl _
    · cases h
  | cons r rs ih =>
    rw [List.foldl_cons]
    rcases h with h | h
    · rw [h]
      exact le_trans (foldl_min_le_init rs (min a r)) (min_le_left a r)
    · rcases List.mem_cons.mp h with h | h
      · rw [h]
        exact le_trans (foldl_min_le_init rs (min a r)) (min_le_right a r)
      · exact ih (min a r) (Or.inr h)

theorem init_le_foldl_max (rs : List ℚ) (a : ℚ) : a ≤ rs.foldl max a := by
  induction rs generalizing a with
  | nil => exact le_refl _
  | cons r rs ih =>
    rw [List.foldl_cons]
    exact le_trans (le_max_left a r) (ih (max a r))

theorem le_foldl_max (rs : List ℚ) (a x : ℚ) (h : x = a ∨ x ∈ rs) : x ≤ rs.foldl max a := by
  induction rs generalizing a with
  | nil =>
    rcases h with h | h
    · rw [h]; exact le_refl _
    · cases h
  | cons r rs ih =>
    rw [List.foldl_cons]
    rcases h with h | h
    · rw [h]
      exact le_trans (le_max_left a r) (init_le_foldl_max rs (max a r))
    · rcases List.mem_cons.mp h with h | h
      · rw [h]
        exact le_trans (le_max_right a r) (init_le_foldl_max rs (max a r))
      · exact ih (max a r) (Or.inr h)

theorem minRatio_le (bins : List LikesBin) (stratum : Int) (b : LikesBin) (hb : b ∈ bins) :
    minRatio bins stratum ≤ b.hit stratum / b.miss_probs := by
  have hmem : b.hit stratum / b.miss_probs ∈ binRatios bins stratum :=
    List.mem_map.mpr ⟨b, hb, rfl⟩
  unfold minRatio
  cases hl : binRatios bins stratum with
  | nil => rw [hl] at hmem; cases hmem
  | cons r rs =>
    rw [hl] at hmem
    exact foldl_min_le rs r _ (List.mem_cons.mp hmem)

theorem le_maxRatio (bins : List LikesBin) (stratum : Int) (b : LikesBin) (hb : b ∈ bins) :
    b.hit stratum / b.miss_probs ≤ maxRatio bins stratum := by
  have hmem : b.hit stratum / b.miss_probs ∈ binRatios bins stratum :=
    List.mem_map.mpr ⟨b, hb, rfl⟩
  unfold maxRatio
  cases hl : binRatios bins stratum with
  | nil => rw [hl] at hmem; cases hmem
  | cons r rs =>
    rw [hl] at hmem
    exact le_foldl_max rs r _ (List.mem_cons.mp hmem)

theorem lookups_of_bins (E : Env) (d : popComp_data_multiple) (isnp : Nat) (s : Stat)
    (bins : List LikesBin) (hT : likesTable E s = tableOfBins bins)
    (hin : (findBin bins (statValue E d isnp s)).isSome) :
    ∃ b, b ∈ bins ∧ hitprob E d isnp s = b.hit (likesFreqIndex d isnp)
      ∧ missprob E d isnp s = b.miss_probs
      ∧ minbf E d isnp s = minRatio bins (likesFreqIndex d isnp)
      ∧ maxbf E d isnp s = maxRatio bins (likesFreqIndex d isnp) := by
  obtain ⟨b, hb⟩ := Option.isSome_iff_exists.mp hin
  have hrec := block_eq_uniform E d isnp s
  rw [hT] at hrec
  refine ⟨b, List.mem_of_find?_eq_some hb, ?_, ?_, ?_, ?_⟩
  · have := congrArg StatRecord.hit hrec
    simp only [blockRecord, uniformRecord, tableOfBins, hb] at this
    exact this
  · have := congrArg StatRecord.miss hrec
    simp only [blockRecord, uniformRecord, tableOfBins, hb] at this
    exact this
  · exact congrArg StatRecord.minBf hrec
  · exact congrArg StatRecord.maxBf hrec

/-! ## C6 -/

/-- C6 fails as stated: in the example with tables given by bins, the H12 value
falls into a bin with hit 2^-34 and miss 2^-37, both below 2e-10, so the Bayes
factor is the default 1, while the least and greatest ratio of the table are
3 and 8. -/
theorem bf_outside_bounds_counterexample :
    hitprob exampleEnvBins exampleData 0 .H12 = 1 / 2 ^ 34
      ∧ missprob exampleEnvBins exampleData 0 .H12 = 1 / 2 ^ 37
      ∧ minbf exampleEnvBins exampleData 0 .H12 = 3
      ∧ maxbf exampleEnvBins exampleData 0 .H12 = 8
      ∧ bf exampleEnvBins exampleData 0 .H12 = 1
      ∧ ¬ (minbf exampleEnvBins exampleData 0 .H12 ≤ bf exampleEnvBins exampleData 0 .H12
          ∧ bf exampleEnvBins exampleData 0 .H12 ≤ maxbf exampleEnvBins exampleData 0 .H12) := by
  have h1 : hitprob exampleEnvBins exampleData 0 .H12 = 1 / 2 ^ 34 := by
    norm_num [hitprob, H12_hitprob, exampleEnvBins, tableOfBins, findBin, exampleBins, thisH12,
      exampleData, List.find?, LikesBin.hit]
  have h2 : missprob exampleEnvBins exampleData 0 .H12 = 1 / 2 ^ 37 := by
    norm_num [missprob, H12_missprob, exampleEnvBins, tableOfBins, findBin, exampleBins, thisH12,
      exampleData, List.find?]
  have h3 : minbf exampleEnvBins exampleData 0 .H12 = 3 := by
    norm_num [minbf, H12_minbf, exampleEnvBins, tableOfBins, minRatio, binRatios, exampleBins,
      LikesBin.hit]
  have h4 : maxbf exampleEnvBins exampleData 0 .H12 = 8 := by
    norm_num [maxbf, H12_maxbf, exampleEnvBins, tableOfBins, maxRatio, binRatios, exampleBins,
      LikesBin.hit]
  have h5 : bf exampleEnvBins exampleData 0 .H12 = 1 := by
    rw [bf_eq_catch, catch_cases, h1, h2]
    norm_num
  refine ⟨h1, h2, h3, h4, h5, ?_⟩
  rw [h3, h4, h5]
  norm_num

/-- C6 (amended): when the minimum and maximum Bayes factor of the table of a
statistic are the least and greatest ratio hit / miss over its bins and the
value of the statistic falls into a bin, the Bayes factor lies in
[minBf, maxBf] of the stratum whenever one of the three tests fires (ratio
hit / miss, clamp to maxBf, clamp to minBf); when none fires it is the default
1, so in every case it lies in [minBf, maxBf] or is 1; the value in the three
regimes is hit / miss, maxBf and minBf respectively. -/
theorem bf_in_bounds_unless_default (E : Env) (d : popComp_data_multiple) (isnp : Nat) (s : Stat)
    (bins : List LikesBin) (hT : likesTable E s = tableOfBins bins)
    (hin : (findBin bins (statValue E d isnp s)).isSome) :
    (((missprob E d isnp s > 2e-10 ∧ hitprob E d isnp s > 2e-10)
        ∨ (missprob E d isnp s < 2e-10 ∧ hitprob E d isnp s > 2e-10)
        ∨ (hitprob E d isnp s < 2e-10 ∧ missprob E d isnp s > 2e-10)) →
        minbf E d isnp s ≤ bf E d isnp s ∧ bf E d isnp s ≤ maxbf E d isnp s)
      ∧ (¬ ((missprob E d isnp s > 2e-10 ∧ hitprob E d isnp s > 2e-10)
        ∨ (missprob E d isnp s < 2e-10 ∧ hitprob E d isnp s > 2e-10)
        ∨ (hitprob E d isnp s < 2e-10 ∧ missprob E d isnp s > 2e-10)) →
        bf E d isnp s = 1)
      ∧ ((minbf E d isnp s ≤ bf E d isnp s ∧ bf E d isnp s ≤ maxbf E d isnp s)
        ∨ bf E d isnp s = 1)
      ∧ ((missprob E d isnp s > 2e-10 ∧ hitprob E d isnp s > 2e-10) →
        bf E d isnp s = hitprob E d isnp s / missprob E d isnp s)
      ∧ ((missprob E d isnp s < 2e-10 ∧ hitprob E d isnp s > 2e-10) →
        bf E d isnp s = maxbf E d isnp s)
      ∧ ((hitprob E d isnp s < 2e-10 ∧ missprob E d isnp s > 2e-10) →
        bf E d isnp s = minbf E d isnp s) := by
  obtain ⟨b, hb, hh, hm, hmin, hmax⟩ := lookups_of_bins E d isnp s bins hT hin
  have hlo := minRatio_le bins (likesFreqIndex d isnp) b hb
  have hhi := le_maxRatio bins (likesFreqIndex d isnp) b hb
  rw [← hh, ← hm, ← hmin] at hlo
  rw [← hh, ← hm, ← hmax] at hhi
  have hmm : minbf E d isnp s ≤ maxbf E d isnp s := le_trans hlo hhi
  rw [bf_eq_catch, catch_cases]
  rcases lt_trichotomy (missprob E d isnp s) 2e-10 with h1 | h1 | h1 <;>
  rcases lt_trichotomy (hitprob E d isnp s) 2e-10 with h2 | h2 | h2 <;>
  simp [h1, h2, h1.not_lt, h2.not_lt, hlo, hhi, hmm]

/-- Instance of the amended C6: in the example with tables given by bins, the
nSL value 1 falls into the bin with hit 3/4 and miss 1/4, and the Bayes factor
3 lies between the least ratio 3 and the greatest ratio 8. -/
theorem bf_in_bounds_unless_default_witness :
    likesTable exampleEnvBins .nsl = tableOfBins exampleBins
      ∧ (findBin exampleBins (statValue exampleEnvBins exampleData 0 .nsl)).isSome
      ∧ (missprob exampleEnvBins exampleData 0 .nsl > 2e-10
          ∧ hitprob exampleEnvBins exampleData 0 .nsl > 2e-10)
      ∧ minbf exampleEnvBins exampleData 0 .nsl ≤ bf exampleEnvBins exampleData 0 .nsl
      ∧ bf exampleEnvBins exampleData 0 .nsl ≤ maxbf exampleEnvBins exampleData 0 .nsl :=
  have hin : (findBin exampleBins (statValue exampleEnvBins exampleData 0 .nsl)).isSome := by
    norm_num [findBin, exampleBins, statValue, exampleData, List.find?]
  have hreg : missprob exampleEnvBins exampleData 0 .nsl > 2e-10
      ∧ hitprob exampleEnvBins exampleData 0 .nsl > 2e-10 := by
    norm_num [missprob, hitprob, nsl_missprob, nsl_hitprob, exampleEnvBins, tableOfBins, findBin,
      exampleBins, thisnsl, exampleData, List.find?, LikesBin.hit]
  ⟨rfl, hin, hreg,
    (bf_in_bounds_unless_default exampleEnvBins exampleData 0 .nsl exampleBins rfl hin).1
      (Or.inl hreg)⟩


/-! ## Lemmas on rounding -/

theorem floor_le_roundHalfEven (y : ℚ) : ⌊y⌋ ≤ roundHalfEven y := by
  unfold roundHalfEven
  split_ifs <;> omega

theorem roundHalfEven_intCast (z : Int) : roundHalfEven (z : ℚ) = z := by
  unfold roundHalfEven
  simp

theorem roundHalfEven_small (y : ℚ) (h0 : 0 ≤ y) (h1 : y < 1 / 2) : roundHalfEven y = 0 := by
  have hf : ⌊y⌋ = 0 := by
    rw [Int.floor_eq_iff]
    constructor
    · simpa using h0
    · simp; linarith
  unfold roundHalfEven
  rw [hf, if_pos (by simpa using h1)]

theorem roundBinary_nonneg (prec : Nat) (emin : Int) (x : ℚ) (hx : 0 ≤ x) :
    0 ≤ roundBinary prec emin x := by
  unfold roundBinary
  have hq : (0 : ℚ) < 2 ^ (max (Int.log 2 |x|) emin - ((prec : Int) - 1)) := by positivity
  have h1 : (0 : ℚ) ≤ x / 2 ^ (max (Int.log 2 |x|) emin - ((prec : Int) - 1)) := by positivity
  have h2 : (0 : Int) ≤ ⌊x / 2 ^ (max (Int.log 2 |x|) emin - ((prec : Int) - 1))⌋ :=
    Int.floor_nonneg.mpr h1
  have h3 := floor_le_roundHalfEven (x / 2 ^ (max (Int.log 2 |x|) emin - ((prec : Int) - 1)))
  have h4 : (0 : ℚ) ≤ (roundHalfEven (x / 2 ^ (max (Int.log 2 |x|) emin - ((prec : Int) - 1))) : ℚ) := by
    exact_mod_cast le_trans h2 h3
  positivity

theorem roundBinary_zpow (prec : Nat) (emin : Int) (j : Int) (hp : 1 ≤ prec)
    (hj : emin - ((prec : Int) - 1) ≤ j) : roundBinary prec emin (2 ^ j) = 2 ^ j := by
  unfold roundBinary
  have habs : |(2 : ℚ) ^ j| = 2 ^ j := abs_of_pos (by positivity)
  have hlog : Int.log 2 ((2 : ℚ) ^ j) = j := by
    have := Int.log_zpow (R := ℚ) (b := 2) (by norm_num) j
    simpa using this
  rw [habs, hlog]
  have hn : 0 ≤ j - (max j emin - ((prec : Int) - 1)) := by
    rcases le_total j emin with h | h
    · rw [max_eq_right h]; omega
    · rw [max_eq_left h]; omega
  obtain ⟨n, hn2⟩ := Int.eq_ofNat_of_zero_le hn
  have hdiv : (2 : ℚ) ^ j / 2 ^ (max j emin - ((prec : Int) - 1)) = ((2 ^ n : Int) : ℚ) := by
    rw [← zpow_sub₀ (by norm_num : (2 : ℚ) ≠ 0), hn2]
    simp
  rw [hdiv, roundHalfEven_intCast]
  have : (((2 ^ n : Int)) : ℚ) = (2 : ℚ) ^ (n : Int) := by simp
  rw [this, ← hn2, ← zpow_add₀ (by norm_num : (2 : ℚ) ≠ 0)]
  congr 1
  omega

theorem roundBinary_zpow_underflow (prec : Nat) (emin : Int) (j : Int)
    (hj : j < emin - (prec : Int)) : roundBinary prec emin (2 ^ j) = 0 := by
  unfold roundBinary
  have habs : |(2 : ℚ) ^ j| = 2 ^ j := abs_of_pos (by positivity)
  have hlog : Int.log 2 ((2 : ℚ) ^ j) = j := by
    have := Int.log_zpow (R := ℚ) (b := 2) (by norm_num) j
    simpa using this
  rw [habs, hlog]
  have hmax : max j emin = emin := max_eq_right (by omega)
  rw [hmax, ← zpow_sub₀ (by norm_num : (2 : ℚ) ≠ 0)]
  have hle : (2 : ℚ) ^ (j - (emin - ((prec : Int) - 1))) ≤ 2 ^ (-2 : Int) :=
    zpow_le_zpow_right₀ (by norm_num) (by omega)
  rw [roundHalfEven_small _ (by positivity) (lt_of_le_of_lt hle (by norm_num))]
  simp

theorem roundBinary_ge_zpow (prec : Nat) (emin : Int) (j : Int) (x : ℚ) (hp : 1 ≤ prec)
    (hj : emin - ((prec : Int) - 1) ≤ j) (hx : 2 ^ j ≤ x) : 2 ^ j ≤ roundBinary prec emin x := by
  have hxpos : 0 < x := lt_of_lt_of_le (by positivity) hx
  unfold roundBinary
  rw [abs_of_pos hxpos]
  set L := Int.log 2 x with hL
  have hq : (0 : ℚ) < 2 ^ (max L emin - ((prec : Int) - 1)) := by positivity
  have hfl := floor_le_roundHalfEven (x / 2 ^ (max L emin - ((prec : Int) - 1)))
  rcases le_or_lt (max L emin - ((prec : Int) - 1)) j with hc | hc
  · -- the bound is a multiple of the quantum
    obtain ⟨n, hn2⟩ := Int.eq_ofNat_of_zero_le (sub_nonneg.mpr hc)
    have hdiv : ((2 ^ n : Int) : ℚ) ≤ x / 2 ^ (max L emin - ((prec : Int) - 1)) := by
      rw [le_div_iff₀ hq]
      have : (((2 ^ n : Int)) : ℚ) = (2 : ℚ) ^ (n : Int) := by simp
      rw [this, ← hn2, ← zpow_add₀ (by norm_num : (2 : ℚ) ≠ 0)]
      have e : j - (max L emin - ((prec : Int) - 1)) + (max L emin - ((prec : Int) - 1)) = j := by
        omega
      rw [e]; exact hx
    have h1 : (2 ^ n : Int) ≤ ⌊x / 2 ^ (max L emin - ((prec : Int) - 1))⌋ := Int.le_floor.mpr hdiv
    have h2 : ((2 ^ n : Int) : ℚ) ≤ (roundHalfEven (x / 2 ^ (max L emin - ((prec : Int) - 1))) : ℚ) := by
      exact_mod_cast le_trans h1 hfl
    calc (2 : ℚ) ^ j = ((2 ^ n : Int) : ℚ) * 2 ^ (max L emin - ((prec : Int) - 1)) := by
          have : (((2 ^ n : Int)) : ℚ) = (2 : ℚ) ^ (n : Int) := by simp
          rw [this, ← hn2, ← zpow_add₀ (by norm_num : (2 : ℚ) ≠ 0)]
          congr 1; omega
      _ ≤ _ := by
          exact mul_le_mul_of_nonneg_right h2 hq.le
  · -- the quantum is above the bound: the result is at least one quantum
    have hmax : max L emin = L := by
      rcases le_total L emin with h | h
      · rw [max_eq_right h] at hc; omega
      · exact max_eq_left h
    rw [hmax] at hc hq hfl ⊢
    have hlog : (2 : ℚ) ^ L ≤ x := by
      have := Int.zpow_log_le_self (R := ℚ) (b := 2) (r := x) (by norm_num) hxpos
      simpa using this
    have hqle : (2 : ℚ) ^ (L - ((prec : Int) - 1)) ≤ x :=
      le_trans (zpow_le_zpow_right₀ (by norm_num) (by omega)) hlog
    have hone : (1 : ℚ) ≤ x / 2 ^ (L - ((prec : Int) - 1)) := by
      rw [le_div_iff₀ hq]; simpa using hqle
    have h1 : (1 : Int) ≤ ⌊x / 2 ^ (L - ((prec : Int) - 1))⌋ := Int.le_floor.mpr (by simpa using hone)
    have h2 : (1 : ℚ) ≤ (roundHalfEven (x / 2 ^ (L - ((prec : Int) - 1))) : ℚ) := by
      exact_mod_cast le_trans h1 hfl
    calc (2 : ℚ) ^ j ≤ 2 ^ (L - ((prec : Int) - 1)) := zpow_le_zpow_right₀ (by norm_num) hc.le
      _ = 1 * 2 ^ (L - ((prec : Int) - 1)) := (one_mul _).symm
      _ ≤ _ := mul_le_mul_of_nonneg_right h2 hq.le

theorem roundFloat_tiny : roundFloat (2 ^ (-149 : Int)) = 2 ^ (-149 : Int) :=
  roundBinary_zpow 24 (-126) (-149) (by norm_num) (by norm_num)

theorem mul_tiny (a : Int) (ha : -1074 ≤ a - 149) :
    roundDouble (2 ^ a * 2 ^ (-149 : Int)) = 2 ^ (a - 149) := by
  rw [← zpow_add₀ (by norm_num : (2 : ℚ) ≠ 0)]
  exact roundBinary_zpow 53 (-1022) (a + -149) (by norm_num) (by norm_num; omega)

theorem mul_tiny_underflow (a : Int) (ha : a - 149 < -1075) :
    roundDouble (2 ^ a * 2 ^ (-149 : Int)) = 0 := by
  rw [← zpow_add₀ (by norm_num : (2 : ℚ) ≠ 0)]
  exact roundBinary_zpow_underflow 53 (-1022) (a + -149) (by norm_num; omega)

theorem step_nonneg (p f : ℚ) (hp : 0 ≤ p) (hf : 0 ≤ f) (c : Prop) [Decidable c] :
    0 ≤ (if c then roundDouble (p * roundFloat f) else p) := by
  split_ifs
  · exact roundBinary_nonneg 53 (-1022) _
      (mul_nonneg hp (roundBinary_nonneg 24 (-126) f hf))
  · exact hp

theorem step_ge (a : Int) (ha : -940 ≤ a) (p f : ℚ) (hp : 2 ^ a ≤ p)
    (hf : 2 ^ (-134 : Int) ≤ f) (c : Prop) [Decidable c] :
    2 ^ (a - 134) ≤ (if c then roundDouble (p * roundFloat f) else p) := by
  split_ifs
  · have hrf : (2 : ℚ) ^ (-134 : Int) ≤ roundFloat f :=
      roundBinary_ge_zpow 24 (-126) (-134) f (by norm_num) (by norm_num) hf
    have hprod : (2 : ℚ) ^ (a - 134) ≤ p * roundFloat f := by
      have e : (2 : ℚ) ^ (a - 134) = 2 ^ a * 2 ^ (-134 : Int) := by
        rw [← zpow_add₀ (by norm_num : (2 : ℚ) ≠ 0)]
        rfl
      rw [e]
      exact mul_le_mul hp hrf (by positivity) (le_trans (by positivity) hp)
    exact roundBinary_ge_zpow 53 (-1022) (a - 134) _ (by norm_num) (by norm_num; omega) hprod
  · exact le_trans (zpow_le_zpow_right₀ (by norm_num) (by omega)) hp

/-! ## C19 -/

/-- C19 fails as stated: with the table `tinyTable` for all eight statistics
every minimum and maximum Bayes factor is 2^-149 > 0, every Bayes factor of
the eligible SNP 0 is 2^-149, and the product of the eight factors, rounded
to `double` after each multiplication, underflows to 0. -/
theorem compLikeRatio_underflow_counterexample :
    (∀ s, 0 < minbf exampleEnvTiny exampleData 0 s ∧ 0 < maxbf exampleEnvTiny exampleData 0 s)
      ∧ proceed exampleEnvTiny exampleData 0 = 0
      ∧ (∀ s, bf exampleEnvTiny exampleData 0 s = 2 ^ (-149 : Int))
      ∧ compLikeRatioDouble exampleEnvTiny exampleData 0 = 0
      ∧ ¬ (0 < compLikeRatioDouble exampleEnvTiny exampleData 0) := by
  have hb : ∀ s, 0 < minbf exampleEnvTiny exampleData 0 s
      ∧ 0 < maxbf exampleEnvTiny exampleData 0 s := by
    intro s
    have h : (0 : ℚ) < 2 ^ (-149 : Int) := by positivity
    cases s <;> exact ⟨h, h⟩
  have hp : proceed exampleEnvTiny exampleData 0 = 0 := by
    simp [proceed, thisPos, thisdaf, iComp, advanceComp, exampleEnvTiny, exampleData]
  have hbf : ∀ s, bf exampleEnvTiny exampleData 0 s = 2 ^ (-149 : Int) := by
    intro s
    rw [bf_eq_catch, catch_cases]
    have h1 : hitprob exampleEnvTiny exampleData 0 s = 0 := by cases s <;> rfl
    have h2 : missprob exampleEnvTiny exampleData 0 s = 1 / 2 := by cases s <;> rfl
    have h3 : minbf exampleEnvTiny exampleData 0 s = 2 ^ (-149 : Int) := by cases s <;> rfl
    rw [h1, h2, h3]
    norm_num
  have hz : compLikeRatioDouble exampleEnvTiny exampleData 0 = 0 := by
    unfold compLikeRatioDouble
    rw [if_pos hp]
    have e1 : ihs_bf exampleEnvTiny exampleData 0 = 2 ^ (-149 : Int) := hbf .ihs
    have e2 : delihh_bf exampleEnvTiny exampleData 0 = 2 ^ (-149 : Int) := hbf .delihh
    have e3 : nsl_bf exampleEnvTiny exampleData 0 = 2 ^ (-149 : Int) := hbf .nsl
    have e4 : fst_bf exampleEnvTiny exampleData 0 = 2 ^ (-149 : Int) := hbf .fst
    have e5 : deldaf_bf exampleEnvTiny exampleData 0 = 2 ^ (-149 : Int) := hbf .deldaf
    have e6 : xpehh_bf exampleEnvTiny exampleData 0 = 2 ^ (-149 : Int) := hbf .xpehh
    have e7 : H12_bf exampleEnvTiny exampleData 0 = 2 ^ (-149 : Int) := hbf .H12
    have e8 : iSAFE_bf exampleEnvTiny exampleData 0 = 2 ^ (-149 : Int) := hbf .iSAFE
    have f1 : exampleEnvTiny.takeIhs = 0 := rfl
    have f2 : exampleEnvTiny.takeDelihh = 0 := rfl
    have f3 : exampleEnvTiny.takeNsl = 0 := rfl
    have f4 : exampleEnvTiny.takeFst = 0 := rfl
    have f5 : exampleEnvTiny.takeDeldaf = 0 := rfl
    have f6 : exampleEnvTiny.takeXpehh = 0 := rfl
    have f7 : exampleEnvTiny.takeH12 = 0 := rfl
    have f8 : exampleEnvTiny.takeiSAFE = 0 := rfl
    simp only [e1, e2, e3, e4, e5, e6, e7, e8, f1, f2, f3, f4, f5, f6, f7, f8, if_true,
      roundFloat_tiny]
    have h0 : (1 : ℚ) = 2 ^ (0 : Int) := (zpow_zero 2).symm
    rw [h0, mul_tiny 0 (by norm_num), mul_tiny _ (by norm_num), mul_tiny _ (by norm_num),
      mul_tiny _ (by norm_num), mul_tiny _ (by norm_num), mul_tiny _ (by norm_num),
      mul_tiny _ (by norm_num), mul_tiny_underflow _ (by norm_num)]
  refine ⟨hb, hp, hbf, hz, ?_⟩
  rw [hz]
  exact lt_irrefl 0

/-- C19 (amended): if for every statistic the minimum and maximum Bayes factor
of its table at the stratum of the SNP are strictly positive, then at an
eligible SNP all eight Bayes factors are strictly positive, their exact
product over the enabled statistics is strictly positive, and the composite
ratio that the `double` arithmetic leaves in `compLikeRatio` is never negative;
it is strictly positive when every Bayes factor is at least 2^-134, so that
no product of up to eight factors underflows. -/
theorem compLikeRatio_pos (E : Env) (d : popComp_data_multiple) (isnp : Nat)
    (hb : ∀ s, 0 < minbf E d isnp s ∧ 0 < maxbf E d isnp s)
    (hp : proceed E d isnp = 0) :
    (∀ s, 0 < bf E d isnp s) ∧ 0 < compLikeRatio E d isnp
      ∧ 0 ≤ compLikeRatioDouble E d isnp
      ∧ ((∀ s, 2 ^ (-134 : Int) ≤ bf E d isnp s) → 0 < compLikeRatioDouble E d isnp) := by
  have hbf : ∀ s, 0 < bf E d isnp s := fun s => bf_pos_of_bounds E d isnp s (hb s).1 (hb s).2
  refine ⟨hbf, ?_, ?_, ?_⟩
  · rw [ratio_prod_of_proceed E d isnp hp]
    apply List.prod_pos
    intro a ha
    obtain ⟨s, _, rfl⟩ := List.mem_map.mp ha
    exact hbf s
  · unfold compLikeRatioDouble
    rw [if_pos hp]
    have s1 := step_nonneg 1 (ihs_bf E d isnp) zero_le_one (hbf .ihs).le (E.takeIhs = 0)
    have s2 := step_nonneg _ (delihh_bf E d isnp) s1 (hbf .delihh).le (E.takeDelihh = 0)
    have s3 := step_nonneg _ (nsl_bf E d isnp) s2 (hbf .nsl).le (E.takeNsl = 0)
    have s4 := step_nonneg _ (fst_bf E d isnp) s3 (hbf .fst).le (E.takeFst = 0)
    have s5 := step_nonneg _ (deldaf_bf E d isnp) s4 (hbf .deldaf).le (E.takeDeldaf = 0)
    have s6 := step_nonneg _ (xpehh_bf E d isnp) s5 (hbf .xpehh).le (E.takeXpehh = 0)
    have s7 := step_nonneg _ (H12_bf E d isnp) s6 (hbf .H12).le (E.takeH12 = 0)
    exact step_nonneg _ (iSAFE_bf E d isnp) s7 (hbf .iSAFE).le (E.takeiSAFE = 0)
  · intro hge
    unfold compLikeRatioDouble
    rw [if_pos hp]
    have h0 : (2 : ℚ) ^ (0 : Int) ≤ 1 := by simp
    have s1 := step_ge 0 (by norm_num) 1 (ihs_bf E d isnp) h0 (hge .ihs) (E.takeIhs = 0)
    have s2 := step_ge _ (by norm_num) _ (delihh_bf E d isnp) s1 (hge .delihh)
      (E.takeDelihh = 0)
    have s3 := step_ge _ (by norm_num) _ (nsl_bf E d isnp) s2 (hge .nsl) (E.takeNsl = 0)
    have s4 := step_ge _ (by norm_num) _ (fst_bf E d isnp) s3 (hge .fst) (E.takeFst = 0)
    have s5 := step_ge _ (by norm_num) _ (deldaf_bf E d isnp) s4 (hge .deldaf)
      (E.takeDeldaf = 0)
    have s6 := step_ge _ (by norm_num) _ (xpehh_bf E d isnp) s5 (hge .xpehh) (E.takeXpehh = 0)
    have s7 := step_ge _ (by norm_num) _ (H12_bf E d isnp) s6 (hge .H12) (E.takeH12 = 0)
    have s8 := step_ge _ (by norm_num) _ (iSAFE_bf E d isnp) s7 (hge .iSAFE) (E.takeiSAFE = 0)
    exact lt_of_lt_of_le (by positivity) s8

/-- Instance of the amended C19: every table of the example has positive
bounds and Bayes factors of at least 1/100, SNP 0 is eligible, and its
composite ratio in `double` arithmetic is positive. -/
theorem compLikeRatio_pos_witness :
    (∀ s, 0 < minbf exampleEnv exampleData 0 s ∧ 0 < maxbf exampleEnv exampleData 0 s)
      ∧ proceed exampleEnv exampleData 0 = 0
      ∧ (∀ s, 2 ^ (-134 : Int) ≤ bf exampleEnv exampleData 0 s)
      ∧ 0 < compLikeRatio exampleEnv exampleData 0
      ∧ 0 < compLikeRatioDouble exampleEnv exampleData 0 :=
  have hb : ∀ s, 0 < minbf exampleEnv exampleData 0 s ∧ 0 < maxbf exampleEnv exampleData 0 s := by
    intro s
    cases s <;>
      norm_num [minbf, maxbf, ihs_minbf, nsl_minbf, delihh_minbf, H12_minbf, iSAFE_minbf,
        xpehh_minbf, fst_minbf, deldaf_minbf, ihs_maxbf, nsl_maxbf, delihh_maxbf, H12_maxbf,
        iSAFE_maxbf, xpehh_maxbf, fst_maxbf, deldaf_maxbf, exampleEnv, constTable]
  have hp : proceed exampleEnv exampleData 0 = 0 := by
    simp [proceed, thisPos, thisdaf, iComp, advanceComp, exampleEnv, exampleData]
  have hsmall : (2 : ℚ) ^ (-134 : Int) ≤ 1 / 100 := by
    have h1 : (2 : ℚ) ^ (-134 : Int) ≤ 2 ^ (-7 : Int) := zpow_le_zpow_right₀ (by norm_num) (by norm_num)
    have h2 : (2 : ℚ) ^ (-7 : Int) ≤ 1 / 100 := by norm_num
    exact le_trans h1 h2
  have hge : ∀ s, 2 ^ (-134 : Int) ≤ bf exampleEnv exampleData 0 s := by
    intro s
    refine le_trans hsmall ?_
    rw [bf_eq_catch, catch_cases]
    cases s <;>
      norm_num [hitprob, missprob, minbf, maxbf, ihs_hitprob, nsl_hitprob, delihh_hitprob,
        H12_hitprob, iSAFE_hitprob, xpehh_hitprob, fst_hitprob, deldaf_hitprob, ihs_missprob,
        nsl_missprob, delihh_missprob, H12_missprob, iSAFE_missprob, xpehh_missprob,
        fst_missprob, deldaf_missprob, ihs_minbf, nsl_minbf, delihh_minbf, H12_minbf,
        iSAFE_minbf, xpehh_minbf, fst_minbf, deldaf_minbf, ihs_maxbf, nsl_maxbf, delihh_maxbf,
        H12_maxbf, iSAFE_maxbf, xpehh_maxbf, fst_maxbf, deldaf_maxbf, exampleEnv, constTable]
  ⟨hb, hp, hge, (compLikeRatio_pos exampleEnv exampleData 0 hb hp).2.1,
    (compLikeRatio_pos exampleEnv exampleData 0 hb hp).2.2.2 hge⟩


end CombineScoresGw
